import Mathlib

/-!
Formal model of the cema environment manager.

This development shallowly embeds the operations of
`src/cema/environment_manager.py` (the `EnvironmentManager` class) and
`src/cema/environment.py` (the `Environment` class) as executable Lean
functions, and proves properties of them.

Modelling conventions:
* Python exceptions become `Except` results.  The two exception classes that
  the source raises (`IncompatibilityException` from `cema.exceptions`, and the
  builtin `Exception`) become the two constructors of `PyError`; the carried
  message string is reproduced from the source f-strings.
* Ambient platform state (`platform.system()`, `platform.machine()`,
  `platform.python_version()`, the current working directory), the filesystem
  observations the manager makes (existence of the micromamba binary and of
  `envs/<name>/conda-meta`), and the in-process package registry
  (`importlib.metadata.distributions()`) are fields of `ManagerState`.
* Shell execution is an oracle `List String → List String × Int` mapping the
  command list of one `executeCommands` invocation to the captured output
  lines and the final return code.  Each function returns, besides its result,
  the list of command batches it actually handed to the executor, so that
  "no shell instruction was executed" is expressible as that list being `[]`.
-/

/-- Substring test: `pat` occurs inside `s` (Python's `pat in s`). -/
def strContains (s pat : String) : Bool :=
  decide (pat.data <:+: s.data)

/-- Python `s.strip()`: leading and trailing whitespace removed. -/
def strTrim (s : String) : String :=
  String.mk (((s.data.dropWhile Char.isWhitespace).reverse.dropWhile Char.isWhitespace).reverse)

/-- Python `s.startswith(pre)`. -/
def strStartsWith (s pre : String) : Bool :=
  pre.data.isPrefixOf s.data

/-- Python `s.lower()` for the ASCII names it is applied to. -/
def strLower (s : String) : String :=
  String.mk (s.data.map Char.toLower)

/-- Replacement of every non-overlapping occurrence of `pat` (non-empty),
    scanning left to right; the fuel (initially the list length, which
    strictly dominates the number of steps) keeps the recursion
    structural. -/
def replaceAux (pat rep : List Char) : Nat → List Char → List Char
  | _, [] => []
  | 0, l => l
  | fuel + 1, c :: rest =>
      if pat.isPrefixOf (c :: rest) then
        rep ++ replaceAux pat rep fuel (rest.drop (pat.length - 1))
      else
        c :: replaceAux pat rep fuel rest

/-- Python `s.replace(pat, rep)` (an empty pattern, which Python treats
    specially, does not occur at any call site). -/
def strReplace (s pat rep : String) : String :=
  match pat.data with
  | [] => s
  | c :: cs => String.mk (replaceAux (c :: cs) rep.data s.data.length s.data)

/-- Splitting at every non-overlapping occurrence of the separator,
    scanning left to right, `acc` holding the reversed current piece; the
    fuel keeps the recursion structural. -/
def splitOnAux (sep : List Char) : Nat → List Char → List Char → List (List Char)
  | _, [], acc => [acc.reverse]
  | 0, l, acc => [acc.reverse ++ l]
  | fuel + 1, c :: rest, acc =>
      if sep.isPrefixOf (c :: rest) then
        acc.reverse :: splitOnAux sep fuel (rest.drop (sep.length - 1)) []
      else
        splitOnAux sep fuel rest (c :: acc)

/-- Python `s.split(sep)` for a non-empty separator. -/
def strSplitOn (s sep : String) : List String :=
  match sep.data with
  | [] => [s]
  | c :: cs => (splitOnAux (c :: cs) s.data.length s.data []).map String.mk

/-- Python `repr` of a string that needs no escape sequences: single quotes,
    unless the string itself holds a single quote and no double quote
    (then double quotes), as CPython prints it. -/
def pyReprStr (s : String) : String :=
  if s.data.contains (Char.ofNat 39) && !(s.data.contains (Char.ofNat 34)) then
    "\x22" ++ s ++ "\x22"
  else
    "\x27" ++ s ++ "\x27"

/-- Python `str` of a list of strings: `['a', 'b']`. -/
def pyStrList (xs : List String) : String :=
  "[" ++ String.intercalate ", " (xs.map pyReprStr) ++ "]"

/-- Python slicing `s[-n:]`: the last `n` characters of `s` (all of `s` when
    it is shorter). -/
def pyTail (n : Nat) (s : String) : String :=
  String.mk (s.data.drop (s.data.length - n))

/-- Python `True` / `False` rendering. -/
def pyBoolStr : Bool → String
  | true => "True"
  | false => "False"

/-- The `platforms` value of a structured dependency entry: either the
    sentinel string `"all"` or a list of platform names
    (`cema.dependencies.Dependency`, used by `_formatDependencies`). -/
inductive Platforms where
  | all : Platforms
  | names : List String → Platforms
deriving DecidableEq

/-- A structured dependency entry: `name`, `platforms`, the optional
    `dependencies` key (transitive install, default true when absent) and the
    `optional` flag, as read by `_formatDependencies`
    (environment_manager.py lines 351-371). -/
structure Dependency where
  name : String
  platforms : Platforms
  dependencies : Option Bool := none
  optional : Bool
deriving DecidableEq

/-- One entry of a dependency list: a bare specifier string or a structured
    entry. -/
inductive Dep where
  | str : String → Dep
  | structured : Dependency → Dep
deriving DecidableEq

/-- A dependency specification: the `python` entry (a version string, absent
    or possibly empty) and the lists for the two package managers the code
    reads (`conda` and `pip`). -/
structure Dependencies where
  python : Option String := none
  conda : List Dep := []
  pip : List Dep := []
deriving DecidableEq

/-- `dependencies.get(package_manager, [])` for the two managers
    `_formatDependencies` is invoked with. -/
def depsGet (deps : Dependencies) : String → List Dep
  | "conda" => deps.conda
  | "pip" => deps.pip
  | _ => []

/-- The disjunction guarding retention of a structured entry
    (environment_manager.py lines 357-362, without the
    `raiseIncompatibilityError` disjunct):
    `currentPlatform in platforms or platforms == 'all' or len(platforms) == 0`. -/
def platformOk (cur : String) : Platforms → Bool
  | .all => true
  | .names l => l.contains cur || l.isEmpty

/-- `", ".join(platforms)`; on the (unreachable for the error message)
    sentinel `"all"`, Python would join its characters. -/
def platformsJoin : Platforms → String
  | .all => String.intercalate ", " ["a", "l", "l"]
  | .names l => String.intercalate ", " l

/-- Message of the `IncompatibilityException` raised by
    `_formatDependencies` (environment_manager.py lines 368-371). -/
def incompatMsg (cur : String) (d : Dependency) : String :=
  "Error: the library " ++ (d.name ++ (" is not available on this platform (" ++
    (cur ++ ("). It is only available on the following platforms: " ++
    (platformsJoin d.platforms ++ ".")))))

/-- The loop body of `_formatDependencies` (environment_manager.py lines
    351-371): walks the dependency list in order, collecting the retained
    names into the with-dependencies and no-dependencies buckets, raising
    `IncompatibilityException` (the error message) at the first structured
    entry whose platform set excludes the current platform when the entry is
    not optional and `raiseErr` is set. -/
def formatLoop (cur : String) (raiseErr : Bool) : List Dep → Except String (List String × List String)
  | [] => .ok ([], [])
  | .str s :: rest => do
      let (a, b) ← formatLoop cur raiseErr rest
      .ok (s :: a, b)
  | .structured d :: rest =>
      if platformOk cur d.platforms || !raiseErr then do
        let (a, b) ← formatLoop cur raiseErr rest
        if d.dependencies.getD true then
          .ok (d.name :: a, b)
        else
          .ok (a, d.name :: b)
      else if !d.optional then
        .error (incompatMsg cur d)
      else
        formatLoop cur raiseErr rest

/-- Wrapping of each formatted dependency in double quotes
    (environment_manager.py lines 372-374). -/
def quoteDep (d : String) : String :=
  "\"" ++ (d ++ "\"")

/-- `_formatDependencies` (environment_manager.py lines 341-376): formats the
    dependency list of one package manager, returning the quoted
    with-dependencies list, the quoted no-dependencies list, and whether any
    dependency was retained. -/
def formatDependencies (cur : String) (manager : String) (deps : Dependencies)
    (raiseErr : Bool) : Except String (List String × List String × Bool) :=
  match formatLoop cur raiseErr (depsGet deps manager) with
  | .error m => .error m
  | .ok (a, b) => .ok (a.map quoteDep, b.map quoteDep, decide (a.length + b.length > 0))

/-- Python exceptions raised by the manager: `IncompatibilityException`
    (from `cema.exceptions`) and the builtin `Exception`, each carrying its
    message. -/
inductive PyError where
  | incompatibilityExc : String → PyError
  | exc : String → PyError
deriving DecidableEq

instance {E A : Type} [DecidableEq E] [DecidableEq A] : DecidableEq (Except E A) := fun x y =>
  match x, y with
  | .ok a, .ok b =>
      if h : a = b then isTrue (h ▸ rfl) else isFalse (fun he => h (Except.ok.inj he))
  | .error a, .error b =>
      if h : a = b then isTrue (h ▸ rfl) else isFalse (fun he => h (Except.error.inj he))
  | .ok _, .error _ => isFalse (fun he => Except.noConfusion he)
  | .error _, .ok _ => isFalse (fun he => Except.noConfusion he)

/-- The record the manager keeps per launched environment: the
    `ClientEnvironment(environment, port, process)` value registered in
    `self.environments` (environment_manager.py lines 572-577) together with
    its `installedDependencies` cache (the per-manager entries of that dict).
    `launchedFlag` is modelled from the spec: `ClientEnvironment.launched()`
    (the class is not under src/) reports whether the worker binding is
    live. -/
structure EnvRecord where
  name : String
  port : Int
  launchedFlag : Bool
  installedConda : Option (List String) := none
  installedPip : Option (List String) := none
deriving DecidableEq

/-- The state an `EnvironmentManager` instance observes.  `condaBin`,
    `condaBinConfig` and `condaPath` are the attributes set by
    `setCondaPath`; `system`, `machine`, `pyVersion` and `cwd` model the
    ambient `platform.system()`, `platform.machine()`,
    `platform.python_version()` and `Path.cwd()`; `condaBinaryExists` models
    the filesystem test of `_installCondaIfNecessary`; `existingEnvs` the
    set of names for which `envs/<name>/conda-meta` is a directory
    (`environmentExists`); `distributions` the name/version pairs of
    `importlib.metadata.distributions()`; `moduleCallerPath` the resolved
    path of `module_caller.py`.  `environments` is the registry dict;
    note that in the source it is a class attribute of `EnvironmentManager`
    (environment_manager.py line 19), a fact modelled separately below. -/
structure ManagerState where
  condaBin : String := "micromamba"
  condaBinConfig : String
  condaPath : String
  cwd : String
  system : String
  machine : String
  pyVersion : String
  proxies : Option (List (String × String)) := none
  condaBinaryExists : Bool
  existingEnvs : List String
  environments : List (String × EnvRecord)
  distributions : List (String × String) := []
  moduleCallerPath : String := "module_caller.py"
deriving DecidableEq

/-- `_isWindows` (environment_manager.py lines 219-221). -/
def isWindows (st : ManagerState) : Bool :=
  st.system == "Windows"

/-- `_getPlatformCommonName` (environment_manager.py lines 215-217). -/
def platformCommonName (st : ManagerState) : String :=
  if st.system == "Darwin" then "mac" else strLower st.system

/-- Machine normalization of `_platformCondaFormat`
    (environment_manager.py lines 333-334). -/
def machine64 (m : String) : String :=
  if m == "x86_64" || m == "AMD64" then "64" else m

/-- `_platformCondaFormat` (environment_manager.py lines 331-339).  The
    source indexes `dict(Darwin="osx", Windows="win", Linux="linux")` with
    `platform.system()` and would raise `KeyError` on any other system; the
    model totalizes with the Linux entry, and every theorem that touches
    dependency formatting therefore assumes `supportedSystem`. -/
def platformCondaFormat (st : ManagerState) : String :=
  (if st.system == "Darwin" then "osx"
   else if st.system == "Windows" then "win"
   else "linux") ++ ("-" ++ machine64 st.machine)

/-- The three values of `platform.system()` on which the source's platform
    dictionary lookups are defined. -/
def supportedSystem (st : ManagerState) : Prop :=
  st.system = "Linux" ∨ st.system = "Darwin" ∨ st.system = "Windows"

/-- The relative conda binary path of `_getCondaPaths`
    (environment_manager.py lines 223-227). -/
def condaBinPath (st : ManagerState) : String :=
  if st.system == "Windows" then "micromamba.exe" else "bin/micromamba"

/-- `_setupCondaChannels` (environment_manager.py lines 229-235). -/
def setupCondaChannels (st : ManagerState) : List String :=
  [st.condaBinConfig ++ " config append channels conda-forge",
   st.condaBinConfig ++ " config append channels nodefaults",
   st.condaBinConfig ++ " config set channel_priority flexible"]

/-- `_shellHook` (environment_manager.py lines 237-254); `condaPath` is held
    resolved in the state, `cwd` is the resolved current directory. -/
def shellHook (st : ManagerState) : List String :=
  if st.system == "Windows" then
    ["Set-Location -Path \"" ++ (st.condaPath ++ "\""),
     "$Env:MAMBA_ROOT_PREFIX=\"" ++ (st.condaPath ++ "\""),
     ".\\" ++ (condaBinPath st ++ " shell hook -s powershell | Out-String | Invoke-Expression"),
     "Set-Location -Path \"" ++ (st.cwd ++ "\"")]
  else
    ["cd \"" ++ (st.condaPath ++ "\""),
     "export MAMBA_ROOT_PREFIX=\"" ++ (st.condaPath ++ "\""),
     "eval \"$(" ++ (condaBinPath st ++ " shell hook -s posix)\""),
     "cd \"" ++ (st.cwd ++ "\"")]

/-- `_getProxyEnvironmentVariablesCommands` (environment_manager.py lines
    378-387). -/
def proxyEnvCommands (st : ManagerState) : List String :=
  match st.proxies with
  | none => []
  | some l =>
      l.map (fun p =>
        if !(isWindows st) then
          "export " ++ (strLower p.1 ++ ("_proxy=\"" ++ (p.2 ++ "\"")))
        else
          "$Env:" ++ (strLower p.1 ++ ("_proxy=\"" ++ (p.2 ++ "\""))))

/-- `_getProxyString` (environment_manager.py lines 389-395): the `https`
    proxy, else the `http` one, else none. -/
def proxyString (st : ManagerState) : Option String :=
  match st.proxies with
  | none => none
  | some l =>
      match l.lookup "https" with
      | some v => some v
      | none => l.lookup "http"

/-- First-occurrence split of a character list at `c`: the part before and
    the part after the first `c`, if any. -/
def splitAtChar (c : Char) : List Char → Option (List Char × List Char)
  | [] => none
  | x :: xs =>
      if x == c then some ([], xs)
      else (splitAtChar c xs).map (fun p => (x :: p.1, p.2))

/-- The non-greedy groups of `re.search(r"^[a-zA-Z]+://(.*?):(.*?)@", s)`
    used by `_installCondaIfNecessary` on Windows (environment_manager.py
    lines 269-273): the username up to the first colon after the scheme that
    is followed by an `@`, and the password up to that first `@`. -/
def findCredsAux : List Char → Option (List Char × List Char)
  | [] => none
  | c :: rest =>
      if c == Char.ofNat 58 then
        match splitAtChar (Char.ofNat 64) rest with
        | some (p, _) => some ([], p)
        | none => none
      else
        (findCredsAux rest).map (fun p => (c :: p.1, p.2))

/-- `re.search(r"^[a-zA-Z]+://(.*?):(.*?)@", s)`: anchored scheme of one or
    more ASCII letters, then `://`, then the two non-greedy groups. -/
def parseProxyCreds (s : String) : Option (String × String) :=
  let cs := s.data
  let alpha := cs.takeWhile Char.isAlpha
  if alpha.isEmpty then none
  else
    let rest := cs.drop alpha.length
    if [Char.ofNat 58, Char.ofNat 47, Char.ofNat 47].isPrefixOf rest then
      (findCredsAux (rest.drop 3)).map (fun p => (String.mk p.1, String.mk p.2))
    else none

/-- The Windows credential commands and `-ProxyCredential` fragment of
    `_installCondaIfNecessary` (environment_manager.py lines 269-285). -/
def windowsProxyParts (p : String) : List String × String :=
  match parseProxyCreds p with
  | some (username, password) =>
      (["$proxyUsername = \"" ++ (username ++ "\""),
        "$proxyPassword = \"" ++ (password ++ "\""),
        "$securePassword = ConvertTo-SecureString $proxyPassword -AsPlainText -Force",
        "$proxyCredentials = New-Object System.Management.Automation.PSCredential($proxyUsername, $securePassword)"],
       "-ProxyCredential $proxyCredentials")
  | none => ([], "")

/-- `_installCondaIfNecessary` (environment_manager.py lines 256-307):
    returns `[]` when the micromamba binary is already present, raises for
    unsupported platforms, and otherwise produces the bootstrap command
    list (the `condaPath.mkdir` filesystem side effect is not modelled). -/
def installCondaIfNecessary (st : ManagerState) : Except PyError (List String) :=
  if st.condaBinaryExists then .ok []
  else if !(st.system == "Windows" || st.system == "Linux" || st.system == "Darwin") then
    .error (.exc ("Platform " ++ (st.system ++ " is not supported.")))
  else
    let base := proxyEnvCommands st
    let cmds :=
      if st.system == "Windows" then
        let (credCmds, credArg) :=
          match proxyString st with
          | some p => windowsProxyParts p
          | none => ([], "")
        let proxyArgs :=
          match proxyString st with
          | some p => "-Proxy " ++ (p ++ (" " ++ credArg))
          | none => ""
        base ++ credCmds ++
          ["Set-Location -Path \"" ++ (st.condaPath ++ "\""),
           "echo \"Installing Visual C++ Redistributable if necessary...\"",
           "Invoke-WebRequest " ++ (proxyArgs ++ " -URI \"https://aka.ms/vs/17/release/vc_redist.x64.exe\" -OutFile \"$env:Temp\\vc_redist.x64.exe\"; Start-Process \"$env:Temp\\vc_redist.x64.exe\" -ArgumentList \"/quiet /norestart\" -Wait; Remove-Item \"$env:Temp\\vc_redist.x64.exe\""),
           "echo \"Installing micromamba...\"",
           "Invoke-Webrequest " ++ (proxyArgs ++ " -URI https://github.com/mamba-org/micromamba-releases/releases/download/2.0.4-0/micromamba-win-64 -OutFile micromamba.exe"),
           "New-Item .mambarc -type file"]
      else
        let sysName := if st.system == "Darwin" then "osx" else "linux"
        let mach := if st.machine == "x86_64" then "64" else st.machine
        let proxyArgs :=
          match proxyString st with
          | some p => "--proxy \"" ++ (p ++ "\"")
          | none => ""
        base ++
          ["cd \"" ++ (st.condaPath ++ "\""),
           "echo \"Installing micromamba...\"",
           "curl " ++ (proxyArgs ++ (" -Ls https://micro.mamba.pm/api/micromamba/" ++
             (sysName ++ ("-" ++ (mach ++ "/latest | tar -xvj bin/micromamba"))))),
           "touch .mambarc"]
    .ok (cmds ++ shellHook st ++ setupCondaChannels st)

/-- `_activateConda` (environment_manager.py lines 309-312). -/
def activateConda (st : ManagerState) : Except PyError (List String) :=
  match installCondaIfNecessary st with
  | .error e => .error e
  | .ok cmds => .ok (cmds ++ shellHook st)

/-- `environmentExists` (environment_manager.py lines 314-317). -/
def environmentExists (st : ManagerState) (environment : String) : Bool :=
  st.existingEnvs.contains environment

/-- The truncated rendering of the instruction list in `_getOutput`
    (environment_manager.py lines 65-70): `str(commands)` elided to its last
    150 characters, with a `"[...] "` marker when longer than 150, and the
    empty string for an empty command list. -/
def commandString (commands : List String) : String :=
  let pre := if (pyStrList commands).length > 150 then "[...] " else ""
  if commands.length > 0 then pre ++ pyTail 150 (pyStrList commands) else ""

/-- The message of the `Exception` raised by `_getOutput`, identical at both
    raise sites (environment_manager.py lines 80 and 84). -/
def execFailMsg (commands : List String) : String :=
  "The execution of the commands \"" ++ (commandString commands ++ "\" failed.")

/-- Outcome of a failing `_getOutput`: the exception message, plus whether
    `process.kill()` was invoked before raising (the fatal-marker path). -/
structure GetOutputErr where
  killed : Bool
  msg : String
deriving DecidableEq

/-- The line loop of `_getOutput` (environment_manager.py lines 71-81):
    strips each line (when `strip`), kills the process and raises at the
    first line holding `CondaSystemExit`, and otherwise collects the
    lines. -/
def getOutputLoop (strip : Bool) (failMsg : String) : List String → Except GetOutputErr (List String)
  | [] => .ok []
  | l :: rest =>
      let line := if strip then strTrim l else l
      if strContains line "CondaSystemExit" then .error ⟨true, failMsg⟩
      else
        match getOutputLoop strip failMsg rest with
        | .error e => .error e
        | .ok outs => .ok (line :: outs)

/-- `_getOutput` (environment_manager.py lines 61-85) applied to the captured
    output lines and final return code of the subprocess: collects the
    output, failing on the fatal marker (killing the process) or on a
    non-zero return code. -/
def getOutput (lines : List String) (returncode : Int) (commands : List String)
    (strip : Bool) : Except GetOutputErr (List String × Int) :=
  match getOutputLoop strip (execFailMsg commands) lines with
  | .error e => .error e
  | .ok outs =>
      if returncode != 0 then .error ⟨false, execFailMsg commands⟩
      else .ok (outs, returncode)

/-- A run-to-completion shell execution: the captured output lines and the
    final return code of the script built from one command list. -/
def ShellOracle := List String → List String × Int

/-- `executeCommandAndGetOutput` (environment_manager.py lines 139-151):
    runs the commands and feeds the captured output through `_getOutput`;
    a `_getOutput` failure surfaces as a plain `Exception`. -/
def executeCommandAndGetOutput (oracle : ShellOracle) (commands : List String) :
    Except PyError (List String × Int) :=
  let r := oracle commands
  match getOutput r.1 r.2 commands true with
  | .error e => .error (.exc e.msg)
  | .ok v => .ok v

/-- `_removeChannel` (environment_manager.py lines 153-159). -/
def removeChannel (d : String) : String :=
  if strContains d "::" then (strSplitOn d "::").getD 1 d else d

/-- Python repr of a `platforms` value. -/
def pyShowPlatforms : Platforms → String
  | .all => pyReprStr "all"
  | .names l => "[" ++ (String.intercalate ", " (l.map pyReprStr) ++ "]")

/-- Python repr of one dependency entry, as interpolated into the
    channel-specifier error message.  For structured entries the dict keys
    are rendered in the declaration order of the data model (the
    `Dependency` TypedDict declaration itself is not under src/; an actual
    run shows the caller's key insertion order). -/
def pyShowDep : Dep → String
  | .str s => pyReprStr s
  | .structured d =>
      "\x7b\x27name\x27: " ++ (pyReprStr d.name ++ (", \x27platforms\x27: " ++
        (pyShowPlatforms d.platforms ++
          ((match d.dependencies with
            | none => ""
            | some b => ", \x27dependencies\x27: " ++ pyBoolStr b) ++
           (", \x27optional\x27: " ++ (pyBoolStr d.optional ++ "\x7d"))))))

/-- Python repr of the pip dependency list. -/
def pyShowDepList (l : List Dep) : String :=
  "[" ++ (String.intercalate ", " (l.map pyShowDep) ++ "]")

/-- Static head of the channel-specifier configuration error message of
    `installDependencies` (environment_manager.py lines 406-408). -/
def pipChanPre : String :=
  "One pip dependency has a channel specifier \"::\" is it a conda dependency?\n\n("

/-- Full message of the channel-specifier configuration error. -/
def pipChanMsg (l : List Dep) : String :=
  pipChanPre ++ (pyShowDepList l ++ ")")

/-- The cache invalidation at the end of `installDependencies`
    (environment_manager.py lines 452-453): when the environment is
    registered, its `installedDependencies` dict is emptied. -/
def clearInstalledCache (st : ManagerState) (environment : String) : ManagerState :=
  { st with environments :=
      st.environments.map (fun p =>
        if p.1 == environment then
          (p.1, { p.2 with installedConda := none, installedPip := none })
        else p) }

/-- `installDependencies` (environment_manager.py lines 397-454): formats
    the conda and pip dependency lists (raising on platform
    incompatibility), rejects pip specifiers carrying a `::` channel
    qualifier, and returns the install command list.  No command is
    executed by this function; the commands are returned to the caller. -/
def installDependencies (st : ManagerState) (environment : String) (deps : Dependencies) :
    Except PyError (List String × ManagerState) :=
  match formatDependencies (platformCondaFormat st) "conda" deps true with
  | .error m => .error (.incompatibilityExc m)
  | .ok (cd, cdn, hasC) =>
    match formatDependencies (platformCondaFormat st) "pip" deps true with
    | .error m => .error (.incompatibilityExc m)
    | .ok (pd, pdn, hasP) =>
      if (pd ++ pdn).any (fun d => strContains d "::") then
        .error (.exc (pipChanMsg deps.pip))
      else
        let proxyArgs :=
          match proxyString st with
          | some p => "--proxy " ++ p
          | none => ""
        let cmds :=
          proxyEnvCommands st
          ++ (if hasC || hasP then
                ["echo \"Activating environment " ++ (environment ++ "...\""),
                 st.condaBin ++ (" activate " ++ environment)]
              else [])
          ++ (if cd.length > 0 then
                ["echo \"Installing conda dependencies...\"",
                 st.condaBinConfig ++ (" install " ++ (String.intercalate " " cd ++ " -y"))]
              else [])
          ++ (if cdn.length > 0 then
                ["echo \"Installing conda dependencies without their dependencies...\"",
                 st.condaBinConfig ++ (" install --no-deps " ++ (String.intercalate " " cdn ++ " -y"))]
              else [])
          ++ (if pd.length > 0 then
                ["echo \"Installing pip dependencies...\"",
                 "pip install " ++ (proxyArgs ++ (" " ++ String.intercalate " " pd))]
              else [])
          ++ (if pdn.length > 0 then
                ["echo \"Installing pip dependencies without their dependencies...\"",
                 "pip install " ++ (proxyArgs ++ (" --no-dependencies " ++ String.intercalate " " pdn))]
              else [])
        .ok (cmds, clearInstalledCache st environment)

/-- Python interpolation of an optional environment name (`None` prints as
    `None`). -/
def optStr : Option String → String
  | none => "None"
  | some s => s

/-- The registry record of an optional environment name (a `None` name is
    never a key of the registry dict). -/
def recordLookup (st : ManagerState) (environment : Option String) : Option EnvRecord :=
  match environment with
  | none => none
  | some e => st.environments.lookup e

/-- Write-back of `installedDependencies["conda"]`: the local dict of
    `dependenciesAreInstalled` aliases the registered record's dict, so the
    assignment persists exactly when the environment is registered. -/
def setInstalledConda (st : ManagerState) (environment : Option String) (outs : List String) :
    ManagerState :=
  match environment with
  | none => st
  | some e =>
      { st with environments :=
          st.environments.map (fun p =>
            if p.1 == e then (p.1, { p.2 with installedConda := some outs }) else p) }

/-- Write-back of `installedDependencies["pip"]`, as `setInstalledConda`. -/
def setInstalledPip (st : ManagerState) (environment : Option String) (outs : List String) :
    ManagerState :=
  match environment with
  | none => st
  | some e =>
      { st with environments :=
          st.environments.map (fun p =>
            if p.1 == e then (p.1, { p.2 with installedPip := some outs }) else p) }

/-- The pip half of `dependenciesAreInstalled` (environment_manager.py lines
    192-213): early `True` when no pip dependency is requested, then the
    memoized `pip freeze` query (shelling out for a named environment, and
    reading `importlib.metadata.distributions()` for a `None` name), then
    the containment check. -/
def depsInstalledPipPhase (oracle : ShellOracle) (st : ManagerState)
    (environment : Option String) (pd pdn : List String) (hasP : Bool)
    (ex : List (List String)) : Except PyError (Bool × ManagerState) × List (List String) :=
  if !hasP then (.ok (true, st), ex)
  else
    match (recordLookup st environment).bind (fun r => r.installedPip) with
    | some cache => (.ok ((pd ++ pdn).all (fun d => cache.contains d), st), ex)
    | none =>
      match environment with
      | some e =>
        match activateConda st with
        | .error er => (.error er, ex)
        | .ok ac =>
          let cmds := ac ++ [st.condaBin ++ (" activate " ++ e), "pip freeze"]
          match executeCommandAndGetOutput oracle cmds with
          | .error er => (.error er, ex ++ [cmds])
          | .ok (outs, _) =>
              (.ok ((pd ++ pdn).all (fun d => outs.contains d),
                    setInstalledPip st environment outs), ex ++ [cmds])
      | none =>
        let outs := st.distributions.map (fun q => q.1 ++ ("==" ++ q.2))
        (.ok ((pd ++ pdn).all (fun d => outs.contains d), st), ex)

/-- `dependenciesAreInstalled` (environment_manager.py lines 161-213):
    formats both dependency lists without raising, lazily queries and
    memoizes the installed conda package list (shelling out when not
    cached), checks conda containment, and then delegates to the pip
    phase. -/
def dependenciesAreInstalled (oracle : ShellOracle) (st : ManagerState)
    (environment : Option String) (deps : Dependencies) :
    Except PyError (Bool × ManagerState) × List (List String) :=
  match formatDependencies (platformCondaFormat st) "conda" deps false with
  | .error m => (.error (.incompatibilityExc m), [])
  | .ok (cd, cdn, hasC) =>
    match formatDependencies (platformCondaFormat st) "pip" deps false with
    | .error m => (.error (.incompatibilityExc m), [])
    | .ok (pd, pdn, hasP) =>
      if hasC then
        match (recordLookup st environment).bind (fun r => r.installedConda) with
        | some cache =>
            if !((cd ++ cdn).all (fun d => cache.contains (removeChannel d))) then
              (.ok (false, st), [])
            else
              depsInstalledPipPhase oracle st environment pd pdn hasP []
        | none =>
          match activateConda st with
          | .error er => (.error er, [])
          | .ok ac =>
            let cmds := ac ++ [st.condaBin ++ (" activate " ++ optStr environment),
                               st.condaBin ++ " list -y"]
            match executeCommandAndGetOutput oracle cmds with
            | .error er => (.error er, [cmds])
            | .ok (outs, _) =>
              let st1 := setInstalledConda st environment outs
              if !((cd ++ cdn).all (fun d => outs.contains (removeChannel d))) then
                (.ok (false, st1), [cmds])
              else
                depsInstalledPipPhase oracle st1 environment pd pdn hasP [cmds]
      else
        depsInstalledPipPhase oracle st environment pd pdn hasP []

/-- The python version string computed by `create`
    (environment_manager.py lines 489-493): the `python` entry with `=`
    signs removed, or the empty string when the entry is absent or falsy. -/
def pythonVersionOf (deps : Dependencies) : String :=
  match deps.python with
  | some p => if p == "" then "" else strReplace p "=" ""
  | none => ""

/-- Digit-run parse of a regex `\d+` group. -/
def natOfDigits (cs : List Char) : Nat :=
  cs.foldl (fun a c => a * 10 + (c.toNat - 48)) 0

/-- Match of `(\d+)\.(\d+)` anchored at the head of the character list:
    a non-empty digit run, a dot, a non-empty digit run. -/
def matchVersionAt (cs : List Char) : Option (Nat × Nat) :=
  let d1 := cs.takeWhile Char.isDigit
  if d1.isEmpty then none
  else
    match cs.drop d1.length with
    | c :: r2 =>
        if c == Char.ofNat 46 then
          let d2 := r2.takeWhile Char.isDigit
          if d2.isEmpty then none else some (natOfDigits d1, natOfDigits d2)
        else none
    | [] => none

/-- Leftmost search for `(\d+)\.(\d+)`. -/
def findVersionAux : List Char → Option (Nat × Nat)
  | [] => none
  | c :: rest =>
      match matchVersionAt (c :: rest) with
      | some p => some p
      | none => findVersionAux rest

/-- `re.search(r"(\d+)\.(\d+)", s)` with both groups read as integers
    (environment_manager.py line 494). -/
def pyFindVersion (s : String) : Option (Nat × Nat) :=
  findVersionAux s.data

/-- The version guard of `create` (environment_manager.py lines 494-496):
    a parsed `major.minor` with `major < 3 or minor < 9`. -/
def pythonVersionBad (v : String) : Bool :=
  match pyFindVersion v with
  | some (a, b) => a < 3 || b < 9
  | none => false

/-- Message of the version guard exception (environment_manager.py line
    496). -/
def pythonVersionMsg : String :=
  "Python version must be greater than 3.8"

/-- `_getCommandsForCurrentPlatform` (environment_manager.py lines
    456-468): the `all` entry followed by the entry of the current
    platform's common name. -/
def commandsForCurrentPlatform (st : ManagerState)
    (additional : List (String × List String)) : List String :=
  ((additional.lookup "all").getD []) ++ ((additional.lookup (platformCommonName st)).getD [])

/-- Message of the `errorIfExists` failure of `create`
    (environment_manager.py line 486). -/
def alreadyExistsMsg (environment : String) : String :=
  "Error: the environment " ++ (environment ++ " already exists.")

/-- The `python=` requirement appended to the create instruction
    (environment_manager.py lines 497-499): the requested version, or the
    controller's own `platform.python_version()` when none was
    requested. -/
def pythonRequirementOf (st : ManagerState) (deps : Dependencies) : String :=
  " python=" ++
    (if (pythonVersionOf deps).length > 0 then pythonVersionOf deps else st.pyVersion)

/-- The full command list assembled by `create` (environment_manager.py
    lines 500-505). -/
def createEnvCommands (st : ManagerState) (environment : String) (ac instCmds : List String)
    (pythonRequirement : String) (ai aa : List (String × List String)) : List String :=
  ac ++ [st.condaBinConfig ++ (" create -n " ++ (environment ++ (pythonRequirement ++ " -y")))]
    ++ instCmds ++ commandsForCurrentPlatform st ai ++ commandsForCurrentPlatform st aa

/-- The tail of `create` after the reference-environment shortcut
    (environment_manager.py lines 484-507): the on-disk existence check,
    the python version guard, and the assembly and execution of the
    creation command list. -/
def createCore (oracle : ShellOracle) (st : ManagerState) (environment : String)
    (deps : Dependencies) (ai aa : List (String × List String)) (errorIfExists : Bool)
    (ex0 : List (List String)) : Except PyError (Bool × ManagerState) × List (List String) :=
  if environmentExists st environment then
    if errorIfExists then (.error (.exc (alreadyExistsMsg environment)), ex0)
    else (.ok (true, st), ex0)
  else
    if pythonVersionBad (pythonVersionOf deps) then (.error (.exc pythonVersionMsg), ex0)
    else
      match activateConda st with
      | .error er => (.error er, ex0)
      | .ok ac =>
        match installDependencies st environment deps with
        | .error er => (.error er, ex0)
        | .ok (instCmds, st1) =>
          let cmds := createEnvCommands st environment ac instCmds
            (pythonRequirementOf st deps) ai aa
          match executeCommandAndGetOutput oracle cmds with
          | .error er => (.error er, ex0 ++ [cmds])
          | .ok _ => (.ok (true, st1), ex0 ++ [cmds])

/-- `create` (environment_manager.py lines 470-507).  Besides the result
    (whether creation was needed, with the resulting state) the returned
    list records every command batch handed to the executor. -/
def create (oracle : ShellOracle) (st : ManagerState) (environment : String)
    (deps : Dependencies) (ai aa : List (String × List String))
    (mainEnvironment : Option String) (errorIfExists : Bool) :
    Except PyError (Bool × ManagerState) × List (List String) :=
  match mainEnvironment with
  | some m =>
    match dependenciesAreInstalled oracle st (some m) deps with
    | (.error er, ex) => (.error er, ex)
    | (.ok (b, st1), ex) =>
      if b then (.ok (false, st1), ex)
      else createCore oracle st1 environment deps ai aa errorIfExists ex
  | none => createCore oracle st environment deps ai aa errorIfExists []

/-- `environmentIsLaunched` (environment_manager.py lines 509-514). -/
def environmentIsLaunched (st : ManagerState) (environment : String) : Bool :=
  match st.environments.lookup environment with
  | some r => r.launchedFlag
  | none => false

/-- The observable behaviour of the fire-and-forget worker process started
    by `launch`: the output lines read during the handshake, whether
    `poll()` reports the process finished at the post-handshake check, and
    its return code. -/
structure ProcessResp where
  lines : List String
  finished : Bool
  returncode : Int
deriving DecidableEq

/-- A fire-and-forget shell execution: the worker process started from one
    command list. -/
def SpawnOracle := List String → ProcessResp

/-- Digit-run to number, none for an empty or non-digit run. -/
def digitsToNat (cs : List Char) : Option Nat :=
  if !cs.isEmpty && cs.all Char.isDigit then some (natOfDigits cs) else none

/-- Python `int(s)` on an already-stripped string: optional sign followed by
    digits. -/
def pyInt (s : String) : Option Int :=
  match s.data with
  | [] => none
  | c :: rest =>
      if c == Char.ofNat 45 then (digitsToNat rest).map (fun n => -(n : Int))
      else if c == Char.ofNat 43 then (digitsToNat rest).map (fun n => (n : Int))
      else (digitsToNat s.data).map (fun n => (n : Int))

/-- The sentinel-line loop of `launch` (environment_manager.py lines
    557-566): reads lines until one starts (after stripping) with
    `Listening port `, parsing the port; a `ValueError` from `int()` is
    re-raised.  `none` means the stream ended without the sentinel. -/
def scanPort : List String → Except String (Option Int)
  | [] => .ok none
  | l :: rest =>
      if strStartsWith (strTrim l) "Listening port " then
        let portStr := strReplace (strTrim l) "Listening port " ""
        match pyInt portStr with
        | some n => .ok (some n)
        | none => .error ("invalid literal for int() with base 10: " ++ pyReprStr portStr)
      else scanPort rest

/-- Python dict item assignment `d[n] = r` on an association list. -/
def dictInsert (l : List (String × EnvRecord)) (n : String) (r : EnvRecord) :
    List (String × EnvRecord) :=
  if (l.lookup n).isSome then l.map (fun p => if p.1 == n then (n, r) else p)
  else l ++ [(n, r)]

/-- The activation and worker-entry command list of `launch`
    (environment_manager.py lines 541-552). -/
def launchCommands (st : ManagerState) (environment : String)
    (customCommand : Option String) (condaEnvironment : Bool)
    (aa : List (String × List String)) : Except PyError (List String) :=
  let base : Except PyError (List String) :=
    if condaEnvironment then
      match activateConda st with
      | .error er => .error er
      | .ok ac => .ok (ac ++ [st.condaBin ++ (" activate " ++ environment)])
    else .ok []
  match base with
  | .error er => .error er
  | .ok cmds =>
    .ok (cmds ++ commandsForCurrentPlatform st aa ++
      [match customCommand with
       | none => "python -u \"" ++ (st.moduleCallerPath ++ ("\" " ++ environment))
       | some c => c])

/-- The launch handshake of `launch` (environment_manager.py lines
    541-579) when the environment is not already launched: spawn the
    worker, scan for the `Listening port` sentinel, fail if the process
    already exited, and otherwise register and return the new
    `ClientEnvironment` record (its `initialize()` call, a class not under
    src/, opens the first IPC connection and does not change the
    registry). -/
def launchFresh (spawn : SpawnOracle) (st : ManagerState) (environment : String)
    (customCommand : Option String) (condaEnvironment : Bool)
    (aa : List (String × List String)) :
    Except PyError (EnvRecord × ManagerState) × List (List String) :=
  match launchCommands st environment customCommand condaEnvironment aa with
  | .error er => (.error er, [])
  | .ok cmds =>
    let p := spawn cmds
    match scanPort p.lines with
    | .error m => (.error (.exc m), [cmds])
    | .ok portOpt =>
      let port := portOpt.getD (-1)
      if p.finished then
        (.error (.exc ("Process exited with return code " ++ (toString p.returncode ++ "."))),
         [cmds])
      else
        let ce : EnvRecord := { name := environment, port := port, launchedFlag := true }
        (.ok (ce, { st with environments := dictInsert st.environments environment ce }), [cmds])

/-- `launch` (environment_manager.py lines 528-579): returns the registered
    record at once when the environment is already launched, and otherwise
    performs the handshake.  The returned list records the command batches
    handed to the executor (each batch spawning one worker process). -/
def launch (spawn : SpawnOracle) (st : ManagerState) (environment : String)
    (customCommand : Option String) (condaEnvironment : Bool)
    (aa : List (String × List String)) :
    Except PyError (EnvRecord × ManagerState) × List (List String) :=
  if environmentIsLaunched st environment then
    match st.environments.lookup environment with
    | some r => (.ok (r, st), [])
    | none => launchFresh spawn st environment customCommand condaEnvironment aa
  else
    launchFresh spawn st environment customCommand condaEnvironment aa

/-- `exit` (environment_manager.py lines 609-616) taken at an environment
    name: when the name is registered, calls the record's `_exit()`
    (`ClientEnvironment._exit`, modelled from the spec as terminating the
    worker, recorded in the returned event list) and deletes the registry
    entry; otherwise does nothing. -/
def exitEnv (st : ManagerState) (name : String) : ManagerState × List String :=
  match st.environments.lookup name with
  | some _ =>
      ({ st with environments := st.environments.filter (fun p => p.1 != name) }, [name])
  | none => (st, [])

/-- `Path(p).name` for a `/`-separated path. -/
def pyName (p : String) : String :=
  (strSplitOn p "/").getLastD ""

/-- `Path(p).stem`: the final component without its last suffix (a leading
    dot alone is not a suffix). -/
def pyStem (p : String) : String :=
  let n := pyName p
  let parts := strSplitOn n "."
  if parts.length ≤ 1 then n
  else if parts.headD "" == "" && parts.length == 2 then n
  else String.intercalate "." parts.dropLast

/-- `Path(p).parent` rendered as a string, for the relative `/`-separated
    paths the module loader receives. -/
def pyParent (p : String) : String :=
  let comps := strSplitOn p "/"
  if comps.length ≤ 1 then "." else String.intercalate "/" comps.dropLast

/-- A loaded Python module object, identified by the module name it was
    imported under and the directory appended to `sys.path` just before the
    import. -/
structure PyModule where
  name : String
  dir : String
deriving DecidableEq

/-- The state the module loader of `Environment` touches.  `modules` is
    `Environment.modules` — in the source a CLASS attribute
    (environment.py lines 17-18), mutated in place by item assignment and
    never shadowed by an instance attribute, hence one single dict shared
    by every `Environment` of every manager in the process.  `imports`
    records each `import_module` invocation (module name, directory
    appended to `sys.path`). -/
structure ModulesState where
  modules : List (String × PyModule)
  sysPath : List String
  imports : List (String × String)
deriving DecidableEq

/-- `Environment._importModule` (environment.py lines 32-39): keyed by the
    file stem of the module path; on a cache miss, appends the module's
    parent directory to `sys.path`, imports, and caches. -/
def importModuleCore (st : ModulesState) (modulePath : String) : ModulesState × PyModule :=
  let m := pyStem modulePath
  match st.modules.lookup m with
  | some pm => (st, pm)
  | none =>
      let parent := pyParent modulePath
      let pm : PyModule := ⟨m, parent⟩
      ({ modules := st.modules ++ [(m, pm)],
         sysPath := st.sysPath ++ [parent],
         imports := st.imports ++ [(m, parent)] }, pm)

/-- `Environment.importModule` (environment.py lines 41-55) invoked on the
    environment `envIdx` of the manager instance `managerIdx`: the proxy
    construction (`FakeModule`) performs no import of its own, so the state
    effect is exactly that of `_importModule`; the indices are ignored
    because `Environment.modules` is a class attribute — the lookup
    `self.modules` resolves to the one class-level dict whichever instance
    performs the call. -/
def importModuleThrough (_managerIdx _envIdx : Nat) (st : ModulesState) (modulePath : String) :
    ModulesState × PyModule :=
  importModuleCore st modulePath

/-- The registry as observed through a given `EnvironmentManager` instance.
    `EnvironmentManager.environments` is a class attribute
    (environment_manager.py line 19) that is only ever mutated by item
    assignment and deletion, never rebound on an instance, so attribute
    lookup resolves to the single class-level dict for every instance: the
    observing instance's identity is irrelevant. -/
def observedEnvironments (st : ManagerState) (_managerIdx : Nat) : List (String × EnvRecord) :=
  st.environments

/-- The registration `self.environments[environment] = ce` of `launch`
    (environment_manager.py line 577) performed through the manager
    instance `managerIdx`; the class-attribute semantics makes the instance
    index irrelevant. -/
def registerThrough (st : ManagerState) (_managerIdx : Nat) (name : String) (r : EnvRecord) :
    ManagerState :=
  { st with environments := dictInsert st.environments name r }

/-- `exit` performed through the manager instance `managerIdx`; the
    class-attribute semantics makes the instance index irrelevant. -/
def exitThrough (st : ManagerState) (_managerIdx : Nat) (name : String) :
    ManagerState × List String :=
  exitEnv st name

/-- The bare specifier of a dependency entry: the string itself, or the
    `name` field of a structured entry. -/
def depSpecifier : Dep → String
  | .str s => s
  | .structured d => d.name

/-- A structured entry whose platform set is non-empty, is not the `all`
    sentinel, does not contain the current platform, and whose `optional`
    flag is false — exactly the entries on which `_formatDependencies`
    raises (`platformOk` is false precisely on such platform sets). -/
def isBadDep (cur : String) : Dep → Bool
  | .str _ => false
  | .structured d => !(platformOk cur d.platforms) && !d.optional

/-- A dependency mapping holding at least one platform-incompatible
    non-optional structured entry under either package manager. -/
def hasBadEntry (cur : String) (deps : Dependencies) : Prop :=
  ∃ d ∈ deps.conda ++ deps.pip, isBadDep cur d = true

/-- Every pip entry's specifier is free of the `::` channel qualifier. -/
def pipFreeOfChannel (deps : Dependencies) : Prop :=
  ∀ d ∈ deps.pip, strContains (depSpecifier d) "::" = false

/-- A concrete Linux manager state used by the concrete instantiations
    below: micromamba installed, one environment (`existing`) on disk,
    empty registry. -/
def stLinux : ManagerState :=
  { condaBinConfig := "micromamba --rc-file \"/mm/.mambarc\""
    condaPath := "/mm"
    cwd := "/work"
    system := "Linux"
    machine := "x86_64"
    pyVersion := "3.11.0"
    condaBinaryExists := true
    existingEnvs := ["existing"]
    environments := []
    distributions := [("numpy", "1.0")] }

/-- A launched environment record. -/
def recLaunched : EnvRecord :=
  { name := "e", port := 5000, launchedFlag := true }

/-- `stLinux` with the environment `e` registered as launched. -/
def stLaunched : ManagerState :=
  { stLinux with environments := [("e", recLaunched)] }

/-- A run-to-completion oracle that reports empty output and success. -/
def oracleZero : ShellOracle := fun _ => ([], 0)

/-- A run-to-completion oracle that reports one output line and success. -/
def oracleLine : ShellOracle := fun _ => (["line"], 0)

/-- A structured entry restricted to Windows, not optional. -/
def badDepWin : Dependency :=
  { name := "x", platforms := .names ["win-64"], optional := false }

/-- Dependencies where the platform-incompatible entry is preceded by a
    too-old python version request. -/
def depsC1 : Dependencies :=
  { python := some "2.7", conda := [.structured badDepWin] }

/-- Dependencies whose single pip entry carries a `::` channel qualifier in
    its name but is optional and restricted to a platform other than the
    current one. -/
def depsC3 : Dependencies :=
  { pip := [.structured { name := "ch::x", platforms := .names ["win-64"], optional := true }] }

/-- A 160-character command, whose list rendering exceeds 150 characters. -/
def longCmd : String :=
  String.mk (List.replicate 160 (Char.ofNat 97))

/-- Dependencies of the creation scenario: one conda specifier. -/
def depsC5 : Dependencies :=
  { conda := [.str "pkgA==1.0"] }

/-- The empty module-loader state. -/
def mst0 : ModulesState :=
  { modules := [], sysPath := [], imports := [] }

/-- A record registered through one manager instance in the registry-sharing
    instantiation. -/
def recX : EnvRecord :=
  { name := "x", port := 1, launchedFlag := true }


/-! ## Helper lemmas -/

theorem string_append_ne {p t target : String} (h : ¬ (p.data <+: target.data)) :
    p ++ t ≠ target := by
  intro he
  apply h
  have hd : p.data ++ t.data = target.data := by
    rw [← he]
    rfl
  exact hd ▸ List.prefix_append p.data t.data

theorem lookup_cons_self {α : Type} (k : String) (v : α) (l : List (String × α)) :
    List.lookup k ((k, v) :: l) = some v := by
  simp [List.lookup]

theorem lookup_cons_ne {α : Type} {k k2 : String} (h : (k == k2) = false) (v : α)
    (l : List (String × α)) :
    List.lookup k ((k2, v) :: l) = List.lookup k l := by
  simp [List.lookup, h]

theorem lookup_filter_ne (l : List (String × EnvRecord)) (n : String) :
    (l.filter (fun p => p.1 != n)).lookup n = none := by
  induction l with
  | nil => rfl
  | cons x rest ih =>
      obtain ⟨k, v⟩ := x
      by_cases h : k = n
      · have hb : ((k, v).1 != n) = false := by simp [h]
        simp only [List.filter_cons, hb]
        exact ih
      · have hb : ((k, v).1 != n) = true := by simp [h]
        simp only [List.filter_cons, hb, if_pos]
        rw [lookup_cons_ne (by simp [Ne.symm h]) v]
        exact ih

theorem lookup_append_right {α : Type} (l l2 : List (String × α)) (n : String)
    (h : l.lookup n = none) : (l ++ l2).lookup n = l2.lookup n := by
  induction l with
  | nil => rfl
  | cons x rest ih =>
      obtain ⟨k, v⟩ := x
      cases hx : (n == k) with
      | true =>
          have hk : n = k := beq_iff_eq.mp hx
          subst hk
          rw [lookup_cons_self] at h
          cases h
      | false =>
          rw [lookup_cons_ne hx v] at h
          rw [List.cons_append, lookup_cons_ne hx v]
          exact ih h

theorem lookup_map_overwrite (l : List (String × EnvRecord)) (n : String) (r : EnvRecord) :
    (l.map (fun p => if p.1 == n then (n, r) else p)).lookup n
      = if (l.lookup n).isSome then some r else none := by
  induction l with
  | nil => rfl
  | cons x rest ih =>
      obtain ⟨k, v⟩ := x
      by_cases h : k = n
      · subst h
        rw [List.map_cons]
        rw [if_pos (by simp : (((k, v).1 == k) = true))]
        rw [lookup_cons_self, lookup_cons_self]
        simp
      · have hb2 : (n == k) = false := by simp [Ne.symm h]
        rw [List.map_cons]
        rw [if_neg (by simp [h] : ¬ (((k, v).1 == n) = true))]
        rw [lookup_cons_ne hb2 v, lookup_cons_ne hb2 v]
        exact ih

theorem lookup_dictInsert (l : List (String × EnvRecord)) (n : String) (r : EnvRecord) :
    (dictInsert l n r).lookup n = some r := by
  unfold dictInsert
  by_cases h : (l.lookup n).isSome
  · rw [if_pos h, lookup_map_overwrite, if_pos h]
  · have hn : l.lookup n = none := by
      cases hh : l.lookup n
      · rfl
      · rw [hh] at h
        simp at h
    rw [if_neg h, lookup_append_right _ _ _ hn, lookup_cons_self]

theorem exitEnv_lookup_none (st : ManagerState) (n : String) :
    ((exitEnv st n).1.environments.lookup n) = none := by
  unfold exitEnv
  cases h : st.environments.lookup n with
  | some r =>
      simp only
      exact lookup_filter_ne _ _
  | none =>
      simp only
      exact h

theorem getOutputLoop_error_of_marker {m : String} {lines : List String}
    (h : ∃ l ∈ lines, strContains (strTrim l) "CondaSystemExit" = true) :
    getOutputLoop true m lines = .error { killed := true, msg := m } := by
  induction lines with
  | nil =>
      obtain ⟨l, hl, _⟩ := h
      cases hl
  | cons x rest ih =>
      by_cases hx : strContains (strTrim x) "CondaSystemExit" = true
      · simp [getOutputLoop, hx]
      · have hrest : ∃ l ∈ rest, strContains (strTrim l) "CondaSystemExit" = true := by
          obtain ⟨l, hl, hm⟩ := h
          rcases List.mem_cons.mp hl with he | h2
          · subst he
            exact absurd hm hx
          · exact ⟨l, h2, hm⟩
        have hx2 : strContains (strTrim x) "CondaSystemExit" = false := by
          cases hv : strContains (strTrim x) "CondaSystemExit"
          · rfl
          · exact absurd hv hx
        simp [getOutputLoop, hx2, ih hrest]

theorem getOutputLoop_ok_of_no_marker {m : String} {lines : List String}
    (h : ∀ l ∈ lines, strContains (strTrim l) "CondaSystemExit" = false) :
    getOutputLoop true m lines = .ok (lines.map strTrim) := by
  induction lines with
  | nil => rfl
  | cons x rest ih =>
      have hx : strContains (strTrim x) "CondaSystemExit" = false :=
        h x (List.mem_cons_self x rest)
      have hrest := ih (fun l hl => h l (List.mem_cons_of_mem x hl))
      simp [getOutputLoop, hx, hrest]

theorem activateConda_ok {st : ManagerState} (h : supportedSystem st) :
    ∃ c, activateConda st = .ok c := by
  unfold activateConda installCondaIfNecessary
  by_cases hb : st.condaBinaryExists
  · rw [if_pos hb]
    exact ⟨_, rfl⟩
  · have hsys : (st.system == "Windows" || st.system == "Linux" || st.system == "Darwin")
        = true := by
      rcases h with h | h | h <;> rw [h] <;> decide
    rw [if_neg hb, if_neg (by simp [hsys])]
    exact ⟨_, rfl⟩

theorem formatDependencies_of_loop_error {cur mgr : String} {deps : Dependencies}
    {raiseErr : Bool} {m : String}
    (h : formatLoop cur raiseErr (depsGet deps mgr) = .error m) :
    formatDependencies cur mgr deps raiseErr = .error m := by
  unfold formatDependencies
  rw [h]

theorem formatDependencies_of_loop_ok {cur mgr : String} {deps : Dependencies}
    {raiseErr : Bool} {a b : List String}
    (h : formatLoop cur raiseErr (depsGet deps mgr) = .ok (a, b)) :
    formatDependencies cur mgr deps raiseErr
      = .ok (a.map quoteDep, b.map quoteDep, decide (a.length + b.length > 0)) := by
  unfold formatDependencies
  rw [h]

theorem formatDependencies_ok_inv {cur mgr : String} {deps : Dependencies}
    {raiseErr : Bool} {x y : List String} {z : Bool}
    (h : formatDependencies cur mgr deps raiseErr = .ok (x, y, z)) :
    ∃ a b, formatLoop cur raiseErr (depsGet deps mgr) = .ok (a, b) ∧
      x = a.map quoteDep ∧ y = b.map quoteDep ∧ z = decide (a.length + b.length > 0) := by
  unfold formatDependencies at h
  cases hl : formatLoop cur raiseErr (depsGet deps mgr) with
  | error m =>
      rw [hl] at h
      cases h
  | ok p =>
      obtain ⟨a, b⟩ := p
      rw [hl] at h
      refine ⟨a, b, rfl, ?_, ?_, ?_⟩ <;>
        (injection h with h2; injection h2 with h3 h4; simp_all)

theorem formatLoop_error_of_bad {cur : String} {l : List Dep}
    (h : ∃ d ∈ l, isBadDep cur d = true) :
    ∃ m, formatLoop cur true l = .error m := by
  induction l with
  | nil =>
      obtain ⟨d, hd, _⟩ := h
      cases hd
  | cons x rest ih =>
      obtain ⟨d, hd, hbad⟩ := h
      cases x with
      | str s =>
          have hd2 : d ∈ rest := by
            rcases List.mem_cons.mp hd with he | h2
            · subst he
              cases hbad
            · exact h2
          obtain ⟨m, hm⟩ := ih ⟨d, hd2, hbad⟩
          refine ⟨m, ?_⟩
          simp only [formatLoop, hm]
          rfl
      | structured dd =>
          cases hpo : platformOk cur dd.platforms with
          | false =>
              cases hop : dd.optional with
              | false =>
                  exact ⟨incompatMsg cur dd, by simp [formatLoop, hpo, hop]⟩
              | true =>
                  have hd2 : d ∈ rest := by
                    rcases List.mem_cons.mp hd with he | h2
                    · subst he
                      rw [isBadDep, hpo, hop] at hbad
                      cases hbad
                    · exact h2
                  obtain ⟨m, hm⟩ := ih ⟨d, hd2, hbad⟩
                  exact ⟨m, by simp [formatLoop, hpo, hop, hm]⟩
          | true =>
              have hd2 : d ∈ rest := by
                rcases List.mem_cons.mp hd with he | h2
                · subst he
                  rw [isBadDep, hpo] at hbad
                  cases hbad
                · exact h2
              obtain ⟨m, hm⟩ := ih ⟨d, hd2, hbad⟩
              refine ⟨m, ?_⟩
              simp only [formatLoop, hpo, Bool.not_true, Bool.or_false, if_true, hm]
              rfl

theorem formatLoop_mem {cur : String} {raiseErr : Bool} {l : List Dep} {a b : List String}
    (h : formatLoop cur raiseErr l = .ok (a, b)) :
    ∀ x ∈ a ++ b, ∃ d ∈ l, depSpecifier d = x := by
  induction l generalizing a b with
  | nil =>
      rw [formatLoop] at h
      injection h with h2
      injection h2 with ha hb
      subst ha
      subst hb
      intro x hx
      cases hx
  | cons hd rest ih =>
      cases hd with
      | str s =>
          cases hr : formatLoop cur raiseErr rest with
          | error m =>
              rw [formatLoop] at h
              rw [hr] at h
              cases h
          | ok p =>
              obtain ⟨a2, b2⟩ := p
              rw [formatLoop] at h
              rw [hr] at h
              have ha : a = s :: a2 ∧ b = b2 := by
                injection h with h2
                injection h2 with h3 h4
                exact ⟨h3.symm ▸ rfl, h4.symm ▸ rfl⟩
              obtain ⟨ha1, hb1⟩ := ha
              subst ha1
              subst hb1
              intro x hx
              rcases List.mem_append.mp hx with hx2 | hx2
              · rcases List.mem_cons.mp hx2 with he | h3
                · exact ⟨.str s, List.mem_cons_self _ _, he.symm⟩
                · obtain ⟨d, hd2, he2⟩ := ih hr x (List.mem_append.mpr (Or.inl h3))
                  exact ⟨d, List.mem_cons_of_mem _ hd2, he2⟩
              · obtain ⟨d, hd2, he2⟩ := ih hr x (List.mem_append.mpr (Or.inr hx2))
                exact ⟨d, List.mem_cons_of_mem _ hd2, he2⟩
      | structured dd =>
          by_cases hpo : (platformOk cur dd.platforms || !raiseErr) = true
          · cases hr : formatLoop cur raiseErr rest with
            | error m =>
                rw [formatLoop, if_pos hpo, hr] at h
                cases h
            | ok p =>
                obtain ⟨a2, b2⟩ := p
                rw [formatLoop, if_pos hpo, hr] at h
                cases hdep : dd.dependencies.getD true with
                | true =>
                    rw [hdep] at h
                    simp only [if_true] at h
                    have ha : a = dd.name :: a2 ∧ b = b2 := by
                      injection h with h2
                      injection h2 with h3 h4
                      exact ⟨h3.symm ▸ rfl, h4.symm ▸ rfl⟩
                    obtain ⟨ha1, hb1⟩ := ha
                    subst ha1
                    subst hb1
                    intro x hx
                    rcases List.mem_append.mp hx with hx2 | hx2
                    · rcases List.mem_cons.mp hx2 with he | h3
                      · exact ⟨.structured dd, List.mem_cons_self _ _, he.symm⟩
                      · obtain ⟨d, hd2, he2⟩ := ih hr x (List.mem_append.mpr (Or.inl h3))
                        exact ⟨d, List.mem_cons_of_mem _ hd2, he2⟩
                    · obtain ⟨d, hd2, he2⟩ := ih hr x (List.mem_append.mpr (Or.inr hx2))
                      exact ⟨d, List.mem_cons_of_mem _ hd2, he2⟩
                | false =>
                    rw [hdep] at h
                    simp only [if_false] at h
                    have ha : a = a2 ∧ b = dd.name :: b2 := by
                      injection h with h2
                      injection h2 with h3 h4
                      exact ⟨h3.symm ▸ rfl, h4.symm ▸ rfl⟩
                    obtain ⟨ha1, hb1⟩ := ha
                    subst ha1
                    subst hb1
                    intro x hx
                    rcases List.mem_append.mp hx with hx2 | hx2
                    · obtain ⟨d, hd2, he2⟩ := ih hr x (List.mem_append.mpr (Or.inl hx2))
                      exact ⟨d, List.mem_cons_of_mem _ hd2, he2⟩
                    · rcases List.mem_cons.mp hx2 with he | h3
                      · exact ⟨.structured dd, List.mem_cons_self _ _, he.symm⟩
                      · obtain ⟨d, hd2, he2⟩ := ih hr x (List.mem_append.mpr (Or.inr h3))
                        exact ⟨d, List.mem_cons_of_mem _ hd2, he2⟩
          · by_cases hop : dd.optional = true
            · rw [formatLoop, if_neg hpo] at h
              rw [hop] at h
              simp only [Bool.not_true, if_false] at h
              intro x hx
              obtain ⟨d, hd2, he2⟩ := ih h x hx
              exact ⟨d, List.mem_cons_of_mem _ hd2, he2⟩
            · rw [formatLoop, if_neg hpo] at h
              have hop2 : dd.optional = false := by
                cases hv : dd.optional
                · rfl
                · exact absurd hv hop
              rw [hop2] at h
              simp only [Bool.not_false, if_true] at h
              cases h

theorem getOutputLoop_error_msg {strip : Bool} {m : String} {lines : List String}
    {e : GetOutputErr} (h : getOutputLoop strip m lines = .error e) : e.msg = m := by
  induction lines with
  | nil => cases h
  | cons x rest ih =>
      rw [getOutputLoop] at h
      by_cases hx : strContains (if strip then strTrim x else x) "CondaSystemExit" = true
      · rw [if_pos hx] at h
        cases h
        rfl
      · rw [if_neg hx] at h
        cases hr : getOutputLoop strip m rest with
        | error e2 =>
            rw [hr] at h
            cases h
            exact ih hr
        | ok outs =>
            rw [hr] at h
            cases h

theorem getOutput_error_msg {lines : List String} {rc : Int} {cmds : List String}
    {e : GetOutputErr} (h : getOutput lines rc cmds true = .error e) :
    e.msg = execFailMsg cmds := by
  unfold getOutput at h
  cases hl : getOutputLoop true (execFailMsg cmds) lines with
  | error e2 =>
      simp only [hl] at h
      cases h
      exact getOutputLoop_error_msg hl
  | ok outs =>
      simp only [hl] at h
      by_cases hrc : (rc != 0) = true
      · rw [if_pos hrc] at h
        cases h
        rfl
      · rw [if_neg hrc] at h
        cases h

theorem executeCommandAndGetOutput_error_msg {oracle : ShellOracle} {cmds : List String}
    {er : PyError} (h : executeCommandAndGetOutput oracle cmds = .error er) :
    er = .exc (execFailMsg cmds) := by
  unfold executeCommandAndGetOutput at h
  cases hg : getOutput (oracle cmds).1 (oracle cmds).2 cmds true with
  | error e =>
      simp only [hg] at h
      cases h
      rw [getOutput_error_msg hg]
  | ok v =>
      simp only [hg] at h
      cases h

theorem infix_colons_cons {l : List Char} {c : Char} (hc : ¬ Char.ofNat 58 = c)
    (h : [Char.ofNat 58, Char.ofNat 58] <:+: c :: l) :
    [Char.ofNat 58, Char.ofNat 58] <:+: l := by
  rcases List.infix_cons_iff.mp h with hp | hi
  · obtain ⟨t, ht⟩ := hp
    injection ht with h1 _
    exact absurd h1 hc
  · exact hi

theorem strContains_quote (s : String) :
    strContains (quoteDep s) "::" = strContains s "::" := by
  unfold strContains quoteDep
  rw [decide_eq_decide]
  have hdata : ("\"" ++ (s ++ "\"")).data = Char.ofNat 34 :: (s.data ++ [Char.ofNat 34]) := rfl
  have hpat : ("::" : String).data = [Char.ofNat 58, Char.ofNat 58] := rfl
  rw [hdata, hpat]
  constructor
  · intro h
    have h1 : [Char.ofNat 58, Char.ofNat 58] <:+: s.data ++ [Char.ofNat 34] :=
      infix_colons_cons (by decide) h
    have h2 : [Char.ofNat 58, Char.ofNat 58].reverse <:+: (s.data ++ [Char.ofNat 34]).reverse :=
      List.reverse_infix.mpr h1
    rw [List.reverse_append] at h2
    simp only [List.reverse_cons, List.reverse_nil, List.nil_append,
      List.singleton_append] at h2
    have h3 : [Char.ofNat 58, Char.ofNat 58] <:+: s.data.reverse :=
      infix_colons_cons (by decide) h2
    have h3r : ([Char.ofNat 58, Char.ofNat 58] : List Char).reverse <:+: s.data.reverse := by
      rw [show ([Char.ofNat 58, Char.ofNat 58] : List Char).reverse
          = [Char.ofNat 58, Char.ofNat 58] from rfl]
      exact h3
    exact List.reverse_infix.mp h3r
  · intro h
    obtain ⟨u, v, he⟩ := h
    refine ⟨Char.ofNat 34 :: u, v ++ [Char.ofNat 34], ?_⟩
    rw [← he]
    simp

theorem installDependencies_error_cases {st : ManagerState} {env : String}
    {deps : Dependencies} {er : PyError}
    (h : installDependencies st env deps = .error er) :
    (∃ m, er = .incompatibilityExc m) ∨
    (er = .exc (pipChanMsg deps.pip) ∧
      ∃ a2 b2, formatLoop (platformCondaFormat st) true (depsGet deps "pip") = .ok (a2, b2) ∧
        ((a2.map quoteDep ++ b2.map quoteDep).any (fun d => strContains d "::")) = true) := by
  unfold installDependencies at h
  cases hc : formatDependencies (platformCondaFormat st) "conda" deps true with
  | error m =>
      simp only [hc] at h
      cases h
      exact Or.inl ⟨m, rfl⟩
  | ok t =>
      obtain ⟨cd, cdn, hasC⟩ := t
      simp only [hc] at h
      cases hp : formatDependencies (platformCondaFormat st) "pip" deps true with
      | error m =>
          simp only [hp] at h
          cases h
          exact Or.inl ⟨m, rfl⟩
      | ok t2 =>
          obtain ⟨pd, pdn, hasP⟩ := t2
          simp only [hp] at h
          by_cases hany : ((pd ++ pdn).any (fun d => strContains d "::")) = true
          · rw [if_pos hany] at h
            cases h
            obtain ⟨a2, b2, hl, hx, hy, _⟩ := formatDependencies_ok_inv hp
            refine Or.inr ⟨rfl, a2, b2, hl, ?_⟩
            rw [← hx, ← hy]
            exact hany
          · rw [if_neg hany] at h
            cases h

theorem installDependencies_error_of_bad {st : ManagerState} {env : String}
    {deps : Dependencies} (hbad : hasBadEntry (platformCondaFormat st) deps) :
    ∃ m, installDependencies st env deps = .error (.incompatibilityExc m) := by
  obtain ⟨d, hd, hbd⟩ := hbad
  rcases List.mem_append.mp hd with hc | hp
  · obtain ⟨m, hm⟩ := formatLoop_error_of_bad (l := deps.conda) ⟨d, hc, hbd⟩
    have hm2 : formatLoop (platformCondaFormat st) true (depsGet deps "conda") = .error m := hm
    refine ⟨m, ?_⟩
    unfold installDependencies
    rw [formatDependencies_of_loop_error hm2]
  · cases hcl : formatLoop (platformCondaFormat st) true deps.conda with
    | error m =>
        have hm2 : formatLoop (platformCondaFormat st) true (depsGet deps "conda")
            = .error m := hcl
        refine ⟨m, ?_⟩
        unfold installDependencies
        rw [formatDependencies_of_loop_error hm2]
    | ok p =>
        obtain ⟨a, b⟩ := p
        obtain ⟨m, hm⟩ := formatLoop_error_of_bad (l := deps.pip) ⟨d, hp, hbd⟩
        have hcl2 : formatLoop (platformCondaFormat st) true (depsGet deps "conda")
            = .ok (a, b) := hcl
        have hm2 : formatLoop (platformCondaFormat st) true (depsGet deps "pip")
            = .error m := hm
        refine ⟨m, ?_⟩
        unfold installDependencies
        rw [formatDependencies_of_loop_ok hcl2, formatDependencies_of_loop_error hm2]

theorem getOutput_marker {lines : List String} {rc : Int} {cmds : List String}
    (h : ∃ l ∈ lines, strContains (strTrim l) "CondaSystemExit" = true) :
    getOutput lines rc cmds true = .error { killed := true, msg := execFailMsg cmds } := by
  unfold getOutput
  rw [getOutputLoop_error_of_marker h]

theorem getOutput_nonzero {lines : List String} {rc : Int} {cmds : List String}
    (hm : ∀ l ∈ lines, strContains (strTrim l) "CondaSystemExit" = false) (hrc : rc ≠ 0) :
    getOutput lines rc cmds true = .error { killed := false, msg := execFailMsg cmds } := by
  unfold getOutput
  rw [getOutputLoop_ok_of_no_marker hm]
  show (if (rc != 0) = true
      then (Except.error (GetOutputErr.mk false (execFailMsg cmds))
        : Except GetOutputErr (List String × Int))
      else Except.ok (List.map strTrim lines, rc))
    = Except.error (GetOutputErr.mk false (execFailMsg cmds))
  rw [if_pos (by simpa using hrc)]

theorem commandString_long {cmds : List String} (h : 150 < (pyStrList cmds).length) :
    commandString cmds = "[...] " ++ pyTail 150 (pyStrList cmds) := by
  have hne : 0 < cmds.length := by
    cases cmds with
    | nil =>
        exfalso
        rw [show (pyStrList ([] : List String)).length = 2 from rfl] at h
        omega
    | cons a t => simp
  unfold commandString
  rw [if_pos (show (pyStrList cmds).length > 150 from h)]
  show (if cmds.length > 0 then "[...] " ++ pyTail 150 (pyStrList cmds) else "")
    = "[...] " ++ pyTail 150 (pyStrList cmds)
  rw [if_pos (show cmds.length > 0 from hne)]

theorem pyTail_full {s : String} {n : Nat} (h : s.data.length ≤ n) : pyTail n s = s := by
  unfold pyTail
  rw [show s.data.length - n = 0 from by omega, List.drop_zero]

theorem commandString_short {cmds : List String} (hne : cmds ≠ [])
    (h : (pyStrList cmds).length ≤ 150) :
    commandString cmds = pyStrList cmds := by
  have h2 : (pyStrList cmds).data.length ≤ 150 := h
  unfold commandString
  rw [if_neg (by omega : ¬ (pyStrList cmds).length > 150)]
  rw [if_pos (show cmds.length > 0 from List.length_pos.mpr hne)]
  rw [pyTail_full h2]
  rfl

/-! ## Claims -/

/-- C2: for every environment name that is currently launched (registered
    with a live worker binding), a second call to `launch` with that name
    returns the same registered record — same port — leaves the registry
    unchanged, and hands no command batch to the executor (so no second
    worker process is spawned). -/
theorem claimC2_theorem (spawn : SpawnOracle) (st : ManagerState) (env : String)
    (custom : Option String) (condaEnv : Bool) (aa : List (String × List String))
    (r : EnvRecord) (hlook : st.environments.lookup env = some r)
    (hflag : r.launchedFlag = true) :
    launch spawn st env custom condaEnv aa = (.ok (r, st), []) := by
  unfold launch environmentIsLaunched
  rw [hlook]
  rw [if_pos hflag]

/-- Witness for C2 at a concrete launched state. -/
theorem claimC2_witness :
    launch (fun _ => { lines := [], finished := false, returncode := 0 }) stLaunched "e"
      none true [] = (.ok (recLaunched, stLaunched), []) :=
  claimC2_theorem _ stLaunched "e" none true [] recLaunched (by decide) (by decide)

/-- C6: `exit` removes the environment's record from the registry; a second
    `exit` with the same name — or an `exit` with any unregistered name —
    leaves the state unchanged and touches no process handle (the event
    list of `_exit` calls is empty). -/
theorem claimC6_theorem :
    (∀ st n, ((exitEnv st n).1.environments.lookup n) = none) ∧
    (∀ st n, exitEnv (exitEnv st n).1 n = ((exitEnv st n).1, [])) ∧
    (∀ st n, st.environments.lookup n = none → exitEnv st n = (st, [])) := by
  have h3 : ∀ st n, st.environments.lookup n = none → exitEnv st n = (st, []) := by
    intro st n h
    unfold exitEnv
    rw [h]
  refine ⟨exitEnv_lookup_none, ?_, h3⟩
  intro st n
  exact h3 _ n (exitEnv_lookup_none st n)

/-- Witness for C6 at a concrete state and an unregistered name. -/
theorem claimC6_witness :
    ((exitEnv stLaunched "e").1.environments.lookup "e" = none) ∧
    (exitEnv (exitEnv stLaunched "e").1 "e" = ((exitEnv stLaunched "e").1, [])) ∧
    (exitEnv stLinux "ghost" = (stLinux, [])) :=
  ⟨claimC6_theorem.1 stLaunched "e", claimC6_theorem.2.1 stLaunched "e",
   claimC6_theorem.2.2 stLinux "ghost" (by decide)⟩

/-- C9 (amended): `EnvironmentManager.environments` is a class attribute,
    so the registry is one shared map: a registration or removal performed
    through any manager instance is observed identically through every
    instance — in particular registering through instance `i` makes the
    record visible through any instance `j`, and exiting through `i`
    removes it for every observer. -/
theorem claimC9_theorem (st : ManagerState) (i j : Nat) (n : String) (r : EnvRecord) :
    observedEnvironments (registerThrough st i n r) j
      = observedEnvironments (registerThrough st j n r) j ∧
    (observedEnvironments (registerThrough st i n r) j).lookup n = some r ∧
    (observedEnvironments (exitThrough st i n).1 j).lookup n = none ∧
    observedEnvironments st i = observedEnvironments st j :=
  ⟨rfl, lookup_dictInsert st.environments n r, exitEnv_lookup_none st n, rfl⟩

/-- C9 counterexample: registering an environment through manager instance 0
    changes the registry observed through the distinct manager instance 1 —
    the claim that the registries of distinct instances are independent
    fails, because `environments` is a class attribute
    (environment_manager.py line 19). -/
theorem claimC9_counterexample :
    observedEnvironments (registerThrough stLinux 0 "x" recX) 1
      ≠ observedEnvironments stLinux 1 := by
  decide

/-- C7 (amended): the module cache is keyed by the module path's file stem
    in a single class-level map shared by all environments of all manager
    instances: a second import with the same stem — through any manager —
    reuses the cached module and performs no import; a cached stem is
    returned at once; a missing stem is imported exactly once, with one
    new import event recorded. -/
theorem claimC7_theorem :
    (∀ i j e f st p q, pyStem p = pyStem q →
       importModuleThrough j f (importModuleThrough i e st p).1 q
         = ((importModuleThrough i e st p).1, (importModuleThrough i e st p).2)) ∧
    (∀ i e st p m, st.modules.lookup (pyStem p) = some m →
       importModuleThrough i e st p = (st, m)) ∧
    (∀ i e st p, st.modules.lookup (pyStem p) = none →
       (importModuleThrough i e st p).1.imports = st.imports ++ [(pyStem p, pyParent p)] ∧
       (importModuleThrough i e st p).2 = { name := pyStem p, dir := pyParent p }) := by
  have h2 : ∀ i e st p m, st.modules.lookup (pyStem p) = some m →
      importModuleThrough i e st p = (st, m) := by
    intro i e st p m h
    unfold importModuleThrough importModuleCore
    simp only [h]
  refine ⟨?_, h2, ?_⟩
  · intro i j e f st p q hpq
    cases hl : st.modules.lookup (pyStem p) with
    | some pm =>
        rw [h2 i e st p pm hl]
        exact h2 j f st q pm (hpq ▸ hl)
    | none =>
        have hfirst : importModuleThrough i e st p
            = ({ modules := st.modules ++ [(pyStem p, { name := pyStem p, dir := pyParent p })],
                 sysPath := st.sysPath ++ [pyParent p],
                 imports := st.imports ++ [(pyStem p, pyParent p)] },
               { name := pyStem p, dir := pyParent p }) := by
          unfold importModuleThrough importModuleCore
          simp only [hl]
        rw [hfirst]
        apply h2
        rw [← hpq]
        rw [lookup_append_right _ _ _ hl, lookup_cons_self]
  · intro i e st p h
    unfold importModuleThrough importModuleCore
    simp [h]

/-- Witness for C7 at concrete module paths: two distinct paths with the
    same stem share one cache slot; a cached stem returns at once; a fresh
    stem records one import. -/
theorem claimC7_witness :
    (importModuleThrough 1 1 (importModuleThrough 0 0 mst0 "a/m.py").1 "b/m.py"
       = ((importModuleThrough 0 0 mst0 "a/m.py").1, (importModuleThrough 0 0 mst0 "a/m.py").2)) ∧
    (importModuleThrough 2 2 (importModuleThrough 0 0 mst0 "a/m.py").1 "a/m.py"
       = ((importModuleThrough 0 0 mst0 "a/m.py").1,
          { name := "m", dir := "a" })) ∧
    ((importModuleThrough 0 0 mst0 "a/m.py").1.imports = [("m", "a")] ∧
     (importModuleThrough 0 0 mst0 "a/m.py").2 = { name := "m", dir := "a" }) :=
  ⟨claimC7_theorem.1 0 1 0 1 mst0 "a/m.py" "b/m.py" (by decide),
   claimC7_theorem.2.1 2 2 (importModuleThrough 0 0 mst0 "a/m.py").1 "a/m.py"
     { name := "m", dir := "a" } (by decide),
   by
     have := claimC7_theorem.2.2 0 0 mst0 "a/m.py" (by decide)
     simpa using this⟩

/-- C7 counterexample: after an environment of manager instance 0 has
    imported `a/m.py`, the first import of the same path through an
    environment of the distinct manager instance 1 performs no import at
    all (the process-wide import count stays 1 and the state is unchanged) —
    refuting the claim that the caches of distinct environment-manager
    instances are independent, under which the second manager's first call
    would have imported the module itself. -/
theorem claimC7_counterexample :
    importModuleThrough 1 1 (importModuleThrough 0 0 mst0 "a/m.py").1 "a/m.py"
      = ((importModuleThrough 0 0 mst0 "a/m.py").1, (importModuleThrough 0 0 mst0 "a/m.py").2)
    ∧ (importModuleThrough 1 1 (importModuleThrough 0 0 mst0 "a/m.py").1 "a/m.py").1.imports.length
      = 1 := by
  constructor
  · decide
  · decide

/-- C4 counterexample: the failure raised at the fatal marker and the
    failure raised for a normal non-zero exit status carry the very same
    exception message (both raise sites of `_getOutput` format the identical
    string), so the two failures are not distinct as the claim states —
    they differ only in that the marker path kills the subprocess first. -/
theorem claimC4_counterexample :
    getOutput ["CondaSystemExit"] 0 ["x"] true
      = .error { killed := true, msg := execFailMsg ["x"] } ∧
    getOutput [] 1 ["x"] true
      = .error { killed := false, msg := execFailMsg ["x"] } ∧
    execFailMsg ["x"] = "The execution of the commands \"[\x27x\x27]\" failed." := by
  refine ⟨by decide, by decide, by decide⟩

/-- C4 (amended): a captured line holding the fatal marker kills the
    subprocess and fails immediately (whatever the final status), a
    marker-free run with non-zero status fails without killing, and both
    failures carry the same exception message, holding the instruction
    list rendered by `str`, elided to its last 150 characters with a
    `"[...] "` marker when longer than 150 characters. -/
theorem claimC4_theorem :
    (∀ (lines : List String) (rc : Int) (cmds : List String),
       (∃ l ∈ lines, strContains (strTrim l) "CondaSystemExit" = true) →
       getOutput lines rc cmds true = .error { killed := true, msg := execFailMsg cmds }) ∧
    (∀ (lines : List String) (rc : Int) (cmds : List String),
       (∀ l ∈ lines, strContains (strTrim l) "CondaSystemExit" = false) → rc ≠ 0 →
       getOutput lines rc cmds true = .error { killed := false, msg := execFailMsg cmds }) ∧
    (∀ cmds : List String, 150 < (pyStrList cmds).length →
       execFailMsg cmds = "The execution of the commands \""
         ++ (("[...] " ++ pyTail 150 (pyStrList cmds)) ++ "\" failed.")) ∧
    (∀ cmds : List String, cmds ≠ [] → (pyStrList cmds).length ≤ 150 →
       execFailMsg cmds = "The execution of the commands \""
         ++ (pyStrList cmds ++ "\" failed.")) := by
  refine ⟨?_, ?_, ?_, ?_⟩
  · intro lines rc cmds h
    exact getOutput_marker h
  · intro lines rc cmds hm hrc
    exact getOutput_nonzero hm hrc
  · intro cmds h
    unfold execFailMsg
    rw [commandString_long h]
  · intro cmds hne h
    unfold execFailMsg
    rw [commandString_short hne h]

set_option maxRecDepth 4000

/-- Witness for C4 at concrete runs: a marker line with zero status, a
    clean run with status 2, a 160-character command, and a short
    command. -/
theorem claimC4_witness :
    (getOutput ["ok", "a CondaSystemExit happened"] 0 ["x"] true
       = .error { killed := true, msg := execFailMsg ["x"] }) ∧
    (getOutput ["ok"] 2 ["x"] true
       = .error { killed := false, msg := execFailMsg ["x"] }) ∧
    (execFailMsg [longCmd] = "The execution of the commands \""
       ++ (("[...] " ++ pyTail 150 (pyStrList [longCmd])) ++ "\" failed.")) ∧
    (execFailMsg ["x"] = "The execution of the commands \""
       ++ (pyStrList ["x"] ++ "\" failed.")) :=
  ⟨claimC4_theorem.1 ["ok", "a CondaSystemExit happened"] 0 ["x"] (by decide),
   claimC4_theorem.2.1 ["ok"] 2 ["x"] (by decide) (by decide),
   claimC4_theorem.2.2.1 [longCmd] (by decide),
   claimC4_theorem.2.2.2 ["x"] (by decide) (by decide)⟩

/-- C3 counterexample: a dependencies mapping whose single pip entry's
    specifier carries the `::` channel qualifier, but is optional and
    restricted to a platform other than the current one: the entry is
    silently dropped during formatting, and `installDependencies` succeeds
    without raising any configuration error — refuting the claim that a
    `::` in any pip specifier raises. -/
theorem claimC3_counterexample :
    installDependencies stLinux "env" depsC3 = .ok ([], stLinux) := by
  decide

/-- C3 (amended): the channel-qualifier check runs on the formatted pip
    specifiers that survive platform filtering: when both dependency lists
    format without an incompatibility error and some retained pip specifier
    carries `::`, `installDependencies` raises the configuration error
    (before returning any install command — the function never executes
    commands); and whenever every pip entry's specifier is free of `::`,
    no such configuration error is raised (any failure is an
    `IncompatibilityException`). -/
theorem claimC3_theorem :
    (∀ (st : ManagerState) (env : String) (deps : Dependencies)
       (cd cdn pd pdn : List String) (hc hp : Bool),
       supportedSystem st →
       formatDependencies (platformCondaFormat st) "conda" deps true = .ok (cd, cdn, hc) →
       formatDependencies (platformCondaFormat st) "pip" deps true = .ok (pd, pdn, hp) →
       (pd ++ pdn).any (fun d => strContains d "::") = true →
       installDependencies st env deps = .error (.exc (pipChanMsg deps.pip))) ∧
    (∀ (st : ManagerState) (env : String) (deps : Dependencies),
       supportedSystem st → pipFreeOfChannel deps →
       ∀ er, installDependencies st env deps = .error er →
         ∃ m, er = .incompatibilityExc m) := by
  constructor
  · intro st env deps cd cdn pd pdn hc hp _ hfc hfp hany
    unfold installDependencies
    simp only [hfc, hfp]
    rw [if_pos hany]
  · intro st env deps _ hfree er h
    rcases installDependencies_error_cases h with hinc | ⟨her, a2, b2, hloop, hany⟩
    · exact hinc
    · exfalso
      rw [List.any_eq_true] at hany
      obtain ⟨x, hx, hcx⟩ := hany
      rcases List.mem_append.mp hx with hx2 | hx2
      · obtain ⟨y, hy, hyx⟩ := List.mem_map.mp hx2
        obtain ⟨d, hd, hds⟩ := formatLoop_mem hloop y (List.mem_append.mpr (Or.inl hy))
        rw [← hyx, strContains_quote, ← hds] at hcx
        have : strContains (depSpecifier d) "::" = false := hfree d hd
        rw [this] at hcx
        cases hcx
      · obtain ⟨y, hy, hyx⟩ := List.mem_map.mp hx2
        obtain ⟨d, hd, hds⟩ := formatLoop_mem hloop y (List.mem_append.mpr (Or.inr hy))
        rw [← hyx, strContains_quote, ← hds] at hcx
        have : strContains (depSpecifier d) "::" = false := hfree d hd
        rw [this] at hcx
        cases hcx

/-- Witness for C3: a bare pip specifier carrying `::` raises the
    configuration error; a mapping whose pip specifiers are clean fails
    only with an incompatibility (here: through an incompatible conda
    entry). -/
theorem claimC3_witness :
    (installDependencies stLinux "env" { pip := [.str "ch::y"] }
       = .error (.exc (pipChanMsg [.str "ch::y"]))) ∧
    (∃ m, PyError.incompatibilityExc (incompatMsg "linux-64" badDepWin)
       = .incompatibilityExc m) :=
  ⟨claimC3_theorem.1 stLinux "env" { pip := [.str "ch::y"] } [] [] ["\"ch::y\""] [] false true
     (Or.inl rfl) (by decide) (by decide) (by decide),
   claimC3_theorem.2 stLinux "env" { conda := [.structured badDepWin], pip := [.str "numpy"] }
     (Or.inl rfl)
     (by intro d hd; simp only [List.mem_singleton] at hd; subst hd; decide)
     (.incompatibilityExc (incompatMsg "linux-64" badDepWin))
     (by decide)⟩

/-- C1 counterexample: a dependencies mapping that contains a
    platform-incompatible non-optional structured entry and also requests
    python `2.7`: `create` fails with the plain python-version `Exception`,
    not with an `IncompatibilityException` — the version guard runs before
    dependency formatting, so the claim's required failure kind is wrong on
    this input (no command batch is executed either way). -/
theorem claimC1_counterexample :
    create oracleZero stLinux "newenv" depsC1 [] [] none false
      = (.error (.exc pythonVersionMsg), []) := by
  decide

/-- C1 (amended): a dependencies mapping containing a structured entry
    whose platform set is non-empty, is not `all`, excludes the current
    platform, and is not optional makes `installDependencies` fail with an
    `IncompatibilityException` unconditionally (the function returns the
    command list without executing anything, so the failure precedes every
    shell instruction); `create` fails the same way with no command batch
    executed, provided the environment does not already exist on disk, no
    reference environment is given, and the requested python version passes
    the version guard (otherwise those earlier checks preempt the
    incompatibility failure). -/
theorem claimC1_theorem :
    (∀ (st : ManagerState) (env : String) (deps : Dependencies),
       supportedSystem st → hasBadEntry (platformCondaFormat st) deps →
       ∃ m, installDependencies st env deps = .error (.incompatibilityExc m)) ∧
    (∀ (oracle : ShellOracle) (st : ManagerState) (env : String) (deps : Dependencies)
       (ai aa : List (String × List String)),
       supportedSystem st → hasBadEntry (platformCondaFormat st) deps →
       environmentExists st env = false →
       pythonVersionBad (pythonVersionOf deps) = false →
       ∃ m, create oracle st env deps ai aa none false
         = (.error (.incompatibilityExc m), [])) := by
  constructor
  · intro st env deps _ hbad
    exact installDependencies_error_of_bad hbad
  · intro oracle st env deps ai aa hsys hbad hex hpv
    obtain ⟨m, hm⟩ := @installDependencies_error_of_bad st env deps hbad
    obtain ⟨ac, hac⟩ := activateConda_ok hsys
    refine ⟨m, ?_⟩
    unfold create createCore
    rw [hex]
    simp only [Bool.false_eq_true, if_false]
    rw [hpv]
    simp only [Bool.false_eq_true, if_false]
    rw [hac, hm]

/-- Witness for C1: a platform-incompatible non-optional conda entry on a
    Linux host, against a fresh environment name. -/
theorem claimC1_witness :
    (∃ m, installDependencies stLinux "e" { conda := [.structured badDepWin] }
       = .error (.incompatibilityExc m)) ∧
    (∃ m, create oracleZero stLinux "newenv" { conda := [.structured badDepWin] } [] []
       none false = (.error (.incompatibilityExc m), [])) :=
  ⟨claimC1_theorem.1 stLinux "e" { conda := [.structured badDepWin] } (Or.inl rfl)
     ⟨.structured badDepWin, by decide, by decide⟩,
   claimC1_theorem.2 oracleZero stLinux "newenv" { conda := [.structured badDepWin] } [] []
     (Or.inl rfl) ⟨.structured badDepWin, by decide, by decide⟩ (by decide) (by decide)⟩

theorem activateConda_error_shape {st : ManagerState} {e : PyError}
    (h : activateConda st = .error e) :
    e = .exc ("Platform " ++ (st.system ++ " is not supported.")) := by
  unfold activateConda installCondaIfNecessary at h
  by_cases hb : st.condaBinaryExists
  · rw [if_pos hb] at h
    cases h
  · rw [if_neg hb] at h
    by_cases hs : (st.system == "Windows" || st.system == "Linux" || st.system == "Darwin")
        = true
    · rw [if_neg (by simp [hs])] at h
      cases h
    · rw [if_pos (by simpa using hs)] at h
      cases h
      rfl

/-- C5: when the named environment already exists on disk, `create` with
    `errorIfExists = false` returns true executing nothing, and with
    `errorIfExists = true` raises the already-exists failure; when it does
    not exist (and the creation pipeline validates and the script run
    succeeds), `create` executes exactly one command batch — which contains
    the environment-creation instruction — and returns true. -/
theorem claimC5_theorem :
    (∀ (oracle : ShellOracle) (st : ManagerState) (env : String) (deps : Dependencies)
       (ai aa : List (String × List String)),
       environmentExists st env = true →
       create oracle st env deps ai aa none false = (.ok (true, st), [])) ∧
    (∀ (oracle : ShellOracle) (st : ManagerState) (env : String) (deps : Dependencies)
       (ai aa : List (String × List String)),
       environmentExists st env = true →
       create oracle st env deps ai aa none true
         = (.error (.exc (alreadyExistsMsg env)), [])) ∧
    (∀ (oracle : ShellOracle) (st : ManagerState) (env : String) (deps : Dependencies)
       (ai aa : List (String × List String)) (ac instCmds : List String)
       (st1 : ManagerState) (outs : List String),
       supportedSystem st →
       environmentExists st env = false →
       pythonVersionBad (pythonVersionOf deps) = false →
       activateConda st = .ok ac →
       installDependencies st env deps = .ok (instCmds, st1) →
       oracle (createEnvCommands st env ac instCmds (pythonRequirementOf st deps) ai aa)
         = (outs, 0) →
       (∀ l ∈ outs, strContains (strTrim l) "CondaSystemExit" = false) →
       create oracle st env deps ai aa none false
         = (.ok (true, st1),
            [createEnvCommands st env ac instCmds (pythonRequirementOf st deps) ai aa]) ∧
       (st.condaBinConfig ++ (" create -n " ++ (env ++ (pythonRequirementOf st deps ++ " -y"))))
         ∈ createEnvCommands st env ac instCmds (pythonRequirementOf st deps) ai aa) := by
  refine ⟨?_, ?_, ?_⟩
  · intro oracle st env deps ai aa hex
    unfold create createCore
    simp [hex]
  · intro oracle st env deps ai aa hex
    unfold create createCore
    simp [hex]
  · intro oracle st env deps ai aa ac instCmds st1 outs _ hex hpv hac hinst hor hmk
    have hget : executeCommandAndGetOutput oracle
        (createEnvCommands st env ac instCmds (pythonRequirementOf st deps) ai aa)
        = .ok (outs.map strTrim, 0) := by
      unfold executeCommandAndGetOutput
      simp only [hor]
      unfold getOutput
      rw [getOutputLoop_ok_of_no_marker hmk]
      simp
    constructor
    · unfold create createCore
      simp only [hex, Bool.false_eq_true, if_false]
      rw [hpv]
      simp only [Bool.false_eq_true, if_false]
      rw [hac]
      simp only [hinst, hget]
      rfl
    · unfold createEnvCommands
      simp

/-- Witness for C5: the `existing` environment short-circuits both ways; a
    fresh name with one conda specifier runs one batch holding the create
    instruction. -/
theorem claimC5_witness :
    (create oracleLine stLinux "existing" {} [] [] none false = (.ok (true, stLinux), [])) ∧
    (create oracleLine stLinux "existing" {} [] [] none true
       = (.error (.exc (alreadyExistsMsg "existing")), [])) ∧
    (create oracleLine stLinux "newenv" depsC5 [] [] none false
       = (.ok (true, stLinux),
          [createEnvCommands stLinux "newenv" (shellHook stLinux)
            ["echo \"Activating environment newenv...\"",
             "micromamba activate newenv",
             "echo \"Installing conda dependencies...\"",
             "micromamba --rc-file \"/mm/.mambarc\" install \"pkgA==1.0\" -y"]
            (pythonRequirementOf stLinux depsC5) [] []]) ∧
     (stLinux.condaBinConfig ++ (" create -n " ++ ("newenv"
        ++ (pythonRequirementOf stLinux depsC5 ++ " -y"))))
       ∈ createEnvCommands stLinux "newenv" (shellHook stLinux)
           ["echo \"Activating environment newenv...\"",
            "micromamba activate newenv",
            "echo \"Installing conda dependencies...\"",
            "micromamba --rc-file \"/mm/.mambarc\" install \"pkgA==1.0\" -y"]
           (pythonRequirementOf stLinux depsC5) [] []) :=
  ⟨claimC5_theorem.1 oracleLine stLinux "existing" {} [] [] (by decide),
   claimC5_theorem.2.1 oracleLine stLinux "existing" {} [] [] (by decide),
   claimC5_theorem.2.2 oracleLine stLinux "newenv" depsC5 [] [] (shellHook stLinux)
     ["echo \"Activating environment newenv...\"",
      "micromamba activate newenv",
      "echo \"Installing conda dependencies...\"",
      "micromamba --rc-file \"/mm/.mambarc\" install \"pkgA==1.0\" -y"]
     stLinux ["line"] (Or.inl rfl) (by decide) (by decide) (by decide) (by decide)
     (by decide) (by decide)⟩

/-- C8 counterexample: with a `None` environment name but conda
    dependencies present, `dependenciesAreInstalled` still hands a command
    batch (a `micromamba list` query, with the literal text `activate
    None`) to the shell executor — refuting the claim that a `None` name
    never executes a shell command. -/
theorem claimC8_counterexample :
    (dependenciesAreInstalled oracleLine stLinux none { conda := [.str "a"] }).2 ≠ [] := by
  decide

/-- C8 (amended): with a `None` environment name, the pip containment
    question is answered from `importlib.metadata.distributions()` and no
    shell command executes, provided the mapping has no conda dependencies;
    a conda entry makes the function shell out a list query first. -/
theorem claimC8_theorem (oracle : ShellOracle) (st : ManagerState) (deps : Dependencies)
    (pd pdn : List String) (hp : Bool) (_hsys : supportedSystem st)
    (hconda : deps.conda = [])
    (hfp : formatDependencies (platformCondaFormat st) "pip" deps false = .ok (pd, pdn, hp)) :
    dependenciesAreInstalled oracle st none deps
      = (.ok ((pd ++ pdn).all (fun d =>
           (st.distributions.map (fun q => q.1 ++ ("==" ++ q.2))).contains d), st), []) := by
  have hfc : formatDependencies (platformCondaFormat st) "conda" deps false
      = .ok ([], [], false) := by
    have h0 : formatLoop (platformCondaFormat st) false (depsGet deps "conda")
        = .ok ([], []) := by
      have he : depsGet deps "conda" = deps.conda := rfl
      rw [he, hconda]
      rfl
    rw [formatDependencies_of_loop_ok h0]
    rfl
  unfold dependenciesAreInstalled
  simp only [hfc, hfp, Bool.false_eq_true, if_false]
  unfold depsInstalledPipPhase
  cases hhp : hp with
  | false =>
      obtain ⟨a, b, _, hx, hy, hz⟩ := formatDependencies_ok_inv hfp
      rw [hhp] at hz
      have hab : a.length + b.length = 0 := by
        by_cases hgt : a.length + b.length > 0
        · rw [decide_eq_true hgt] at hz
          cases hz
        · omega
      have ha : a = [] := by
        cases a
        · rfl
        · simp at hab
      have hb : b = [] := by
        cases b
        · rfl
        · simp at hab
      subst ha
      subst hb
      simp only [List.map_nil] at hx hy
      subst hx
      subst hy
      simp
  | true =>
      simp only [Bool.not_true, Bool.false_eq_true, if_false]
      rfl

/-- Witness for C8 at a pip-free mapping on the concrete Linux state. -/
theorem claimC8_witness :
    dependenciesAreInstalled oracleZero stLinux none {}
      = (.ok ((([] : List String) ++ []).all (fun d =>
          (stLinux.distributions.map (fun q : String × String => q.1 ++ ("==" ++ q.2))).contains d),
          stLinux), []) :=
  claimC8_theorem oracleZero stLinux {} [] [] false (Or.inl rfl) rfl (by decide)

/-- C10: a `python` entry whose first `major.minor` match has `major < 3`
    or `minor < 9` makes `create` raise `Python version must be greater
    than 3.8` before executing any command batch (for a fresh environment
    name with no reference environment); in particular the request `4.2`
    is rejected even though 4.2 exceeds 3.8, while a version string with no
    parseable `major.minor` pair never triggers that exception. -/
theorem claimC10_theorem :
    (∀ (oracle : ShellOracle) (st : ManagerState) (env : String) (deps : Dependencies)
       (ai aa : List (String × List String)) (a b : Nat),
       environmentExists st env = false →
       pyFindVersion (pythonVersionOf deps) = some (a, b) → (a < 3 ∨ b < 9) →
       create oracle st env deps ai aa none false
         = (.error (.exc pythonVersionMsg), [])) ∧
    (∀ (oracle : ShellOracle) (st : ManagerState) (env : String)
       (ai aa : List (String × List String)),
       environmentExists st env = false →
       create oracle st env { python := some "4.2" } ai aa none false
         = (.error (.exc pythonVersionMsg), [])) ∧
    (∀ (oracle : ShellOracle) (st : ManagerState) (env : String) (deps : Dependencies)
       (ai aa : List (String × List String)),
       pyFindVersion (pythonVersionOf deps) = none →
       (create oracle st env deps ai aa none false).1 ≠ .error (.exc pythonVersionMsg)) := by
  have p1 : ∀ (oracle : ShellOracle) (st : ManagerState) (env : String) (deps : Dependencies)
      (ai aa : List (String × List String)) (a b : Nat),
      environmentExists st env = false →
      pyFindVersion (pythonVersionOf deps) = some (a, b) → (a < 3 ∨ b < 9) →
      create oracle st env deps ai aa none false
        = (.error (.exc pythonVersionMsg), []) := by
    intro oracle st env deps ai aa a b hex hfind hlt
    have hpv : pythonVersionBad (pythonVersionOf deps) = true := by
      unfold pythonVersionBad
      rw [hfind]
      show (decide (a < 3) || decide (b < 9)) = true
      rcases hlt with h | h
      · rw [decide_eq_true h]
        rfl
      · rw [decide_eq_true h]
        simp
    unfold create createCore
    simp only [hex, Bool.false_eq_true, if_false]
    rw [hpv]
    simp only [if_true]
  refine ⟨p1, ?_, ?_⟩
  · intro oracle st env ai aa hex
    exact p1 oracle st env { python := some "4.2" } ai aa 4 2 hex (by decide)
      (Or.inr (by decide))
  · intro oracle st env deps ai aa hnone hcontra
    unfold create createCore at hcontra
    by_cases hex : environmentExists st env = true
    · simp only [hex, if_true] at hcontra
      cases hcontra
    · have hexf : environmentExists st env = false := by
        cases hv : environmentExists st env
        · rfl
        · exact absurd hv hex
      simp only [hexf, Bool.false_eq_true, if_false] at hcontra
      have hpv : pythonVersionBad (pythonVersionOf deps) = false := by
        unfold pythonVersionBad
        rw [hnone]
      rw [hpv] at hcontra
      simp only [Bool.false_eq_true, if_false] at hcontra
      cases hac : activateConda st with
      | error er2 =>
          simp only [hac] at hcontra
          have hshape := activateConda_error_shape hac
          subst hshape
          injection hcontra with hmsg
          exact string_append_ne (by decide) (PyError.exc.inj hmsg)
      | ok ac =>
          simp only [hac] at hcontra
          cases hinst : installDependencies st env deps with
          | error er2 =>
              simp only [hinst] at hcontra
              rcases installDependencies_error_cases hinst with ⟨m, hm⟩ | ⟨hm, _⟩
              · subst hm
                injection hcontra with hmsg
                cases hmsg
              · subst hm
                injection hcontra with hmsg
                have := PyError.exc.inj hmsg
                unfold pipChanMsg at this
                exact string_append_ne (by decide) this
          | ok pr =>
              obtain ⟨instCmds, st1⟩ := pr
              simp only [hinst] at hcontra
              cases hexe : executeCommandAndGetOutput oracle
                  (createEnvCommands st env ac instCmds (pythonRequirementOf st deps) ai aa) with
              | error er2 =>
                  simp only [hexe] at hcontra
                  have hshape := executeCommandAndGetOutput_error_msg hexe
                  subst hshape
                  injection hcontra with hmsg
                  have := PyError.exc.inj hmsg
                  unfold execFailMsg at this
                  exact string_append_ne (by decide) this
              | ok v =>
                  simp only [hexe] at hcontra
                  cases hcontra

/-- Witness for C10: python `2.7` is rejected on a fresh name, `4.2` is
    rejected, and the unparseable version string `3` passes the check. -/
theorem claimC10_witness :
    (create oracleZero stLinux "newenv" { python := some "2.7" } [] [] none false
       = (.error (.exc pythonVersionMsg), [])) ∧
    (create oracleZero stLinux "newenv" { python := some "4.2" } [] [] none false
       = (.error (.exc pythonVersionMsg), [])) ∧
    ((create oracleZero stLinux "newenv" { python := some "3" } [] [] none false).1
       ≠ .error (.exc pythonVersionMsg)) :=
  ⟨claimC10_theorem.1 oracleZero stLinux "newenv" { python := some "2.7" } [] [] 2 7
     (by decide) (by decide) (Or.inl (by decide)),
   claimC10_theorem.2.1 oracleZero stLinux "newenv" [] [] (by decide),
   claimC10_theorem.2.2 oracleZero stLinux "newenv" { python := some "3" } [] [] (by decide)⟩
